import Mathlib

/-
Verification of the multi-pass product-label analyzer (app/analyzer/*).

The Python source is shallowly embedded: dynamic JSON payloads become
structures of `Option Bool` / `Option String` fields (a `none` field models
an absent JSON key), dict-shaped pass results become one record type with
optional fields, remote model calls become an oracle giving each call
site's outcome, and the retry loops become fuel-based executable
recursions that also report the number of attempts and the sleep delays.
-/

set_option maxRecDepth 10000

abbrev Chars := List Char

/-- ASCII lowercase of one character (Python str.lower on our inputs:
Korean characters are unaffected). -/
def toLowerChar (c : Char) : Char :=
  if 'A' ≤ c ∧ c ≤ 'Z' then Char.ofNat (c.toNat + 32) else c

/-- ASCII uppercase of one character (Python str.upper on our inputs). -/
def toUpperChar (c : Char) : Char :=
  if 'a' ≤ c ∧ c ≤ 'z' then Char.ofNat (c.toNat - 32) else c

def lowerChars (s : Chars) : Chars := s.map toLowerChar

def upperStr (s : String) : String := String.mk (s.data.map toUpperChar)

/-- Whitespace class used by Python str.strip() / regex \s on our inputs. -/
def isSpaceChar (c : Char) : Bool :=
  c = ' ' || c = '\t' || c = '\n' || c = '\r' || c = '\x0b' || c = '\x0c'

def dropWhileSpace (s : Chars) : Chars := s.dropWhile isSpaceChar

def stripLeftBy (p : Char → Bool) (s : Chars) : Chars := s.dropWhile p

def stripRightBy (p : Char → Bool) (s : Chars) : Chars :=
  (s.reverse.dropWhile p).reverse

def stripBothBy (p : Char → Bool) (s : Chars) : Chars :=
  stripRightBy p (stripLeftBy p s)

/-- Python value.strip() (no arguments: whitespace). -/
def pyStrip (s : Chars) : Chars := stripBothBy isSpaceChar s

/-- Python value.strip(cs) for an explicit character set. -/
def pyStripSet (cs : Chars) (s : Chars) : Chars :=
  stripBothBy (fun c => cs.contains c) s

/-- Python value.rstrip(cs). -/
def pyRstripSet (cs : Chars) (s : Chars) : Chars :=
  stripRightBy (fun c => cs.contains c) s

def pyStripStr (s : String) : String := String.mk (pyStrip s.data)

/-- needle is a prefix of hay. -/
def leadsWith : Chars → Chars → Bool
  | [], _ => true
  | _ :: _, [] => false
  | a :: as, b :: bs => a = b && leadsWith as bs

/-- Python `needle in hay` (contiguous substring, empty needle counts). -/
def containsSub (needle : Chars) : Chars → Bool
  | [] => leadsWith needle []
  | c :: t => leadsWith needle (c :: t) || containsSub needle t

/-- Python hay.find(needle): first index of the substring, if any. -/
def findSub (needle : Chars) : Chars → Option Nat
  | [] => if leadsWith needle [] then some 0 else none
  | c :: t =>
    if leadsWith needle (c :: t) then some 0
    else (findSub needle t).map (· + 1)

def containsSubS (needle hay : String) : Bool := containsSub needle.data hay.data

/-- Python str.replace(pat, rep) with nonempty pat, all occurrences; an
empty pat with empty rep returns the string unchanged (the only use here).
Fuel-based so it reduces in the kernel. -/
def replaceAllAux (pat rep : Chars) : Nat → Chars → Chars
  | 0, s => s
  | _ + 1, [] => []
  | fuel + 1, c :: rest =>
    if pat ≠ [] && leadsWith pat (c :: rest) then
      rep ++ replaceAllAux pat rep fuel ((c :: rest).drop pat.length)
    else
      c :: replaceAllAux pat rep fuel rest

def replaceAll (pat rep s : Chars) : Chars :=
  if pat = [] then s else replaceAllAux pat rep s.length s

/-- re.split on a single-character class: keeps empty pieces, like
Python re.split(r"[,/]", s). -/
def splitCharsAux (isSep : Char → Bool) : Chars → Chars → List Chars
  | [], acc => [acc.reverse]
  | c :: rest, acc =>
    if isSep c then acc.reverse :: splitCharsAux isSep rest []
    else splitCharsAux isSep rest (c :: acc)

def splitChars (isSep : Char → Bool) (s : Chars) : List Chars :=
  splitCharsAux isSep s []

/-- ", ".join-style list joining. -/
def joinSep (sep : Chars) : List Chars → Chars
  | [] => []
  | [x] => x
  | x :: y :: rest => x ++ sep ++ joinSep sep (y :: rest)

/-- Python `a or b` on strings (b when a is empty). -/
def pyOrStr (a b : String) : String := if a = "" then b else a

/-- Python `a.get(k) or b.get(k)` on optional strings: the second operand
is returned verbatim when the first is missing or empty. -/
def pyOrOptStr (a b : Option String) : Option String :=
  match a with
  | some s => if s = "" then b else some s
  | none => b

/-- Python truthiness of an optional string. -/
def pyTruthyS (o : Option String) : Bool :=
  match o with
  | some s => s ≠ ""
  | none => false

/-- Python `str(x).strip() if x else None`. -/
def pyStripIfTruthy (v : Option String) : Option String :=
  match v with
  | none => none
  | some s => if s = "" then none else some (pyStripStr s)

/-- Python `value.strip() or None` (empty string collapses to None). -/
def noneIfEmpty (s : String) : Option String := if s = "" then none else some s

/-- _normalize_report_no: strip, drop non-digits, bound the digit count. -/
def normalizeReportNo (value : Option String) (minDigits maxDigits : Nat) :
    Option String :=
  match value with
  | none => none
  | some v =>
    let text := pyStrip v.data
    if text = [] then none
    else
      let digits := text.filter Char.isDigit
      if digits.length < minDigits || maxDigits < digits.length then none
      else some (String.mk digits)

/-- Python regex word-character class \w restricted to the alphabets this
repository's data uses: ASCII letters, digits, underscore, and Korean
syllables/jamo. -/
def isWordCharPy (c : Char) : Bool :=
  c.isDigit || c.isAlpha || c = '_' ||
    (0xAC00 ≤ c.toNat && c.toNat ≤ 0xD7A3) ||
    (0x1100 ≤ c.toNat && c.toNat ≤ 0x11FF) ||
    (0x3130 ≤ c.toNat && c.toNat ≤ 0x318F)

def takeDigitRun (s : Chars) : Chars × Chars :=
  (s.takeWhile Char.isDigit, s.dropWhile Char.isDigit)

/-- Leftmost maximal digit run delimited by word boundaries whose length
lies in [minDigits, maxDigits]: the semantics of
re.search(r"\b\d{min,max}\b", text). `prev` is the character before the
current position. Fuel-based scan. -/
def scanDigitRuns (minDigits maxDigits : Nat) :
    Nat → Option Char → Chars → Option Chars
  | 0, _, _ => none
  | _ + 1, _, [] => none
  | fuel + 1, prev, c :: rest =>
    if c.isDigit then
      let prevOk := match prev with
        | none => true
        | some p => !isWordCharPy p
      let run := takeDigitRun (c :: rest)
      let afterOk := match run.2 with
        | [] => true
        | a :: _ => !isWordCharPy a
      if prevOk && afterOk && minDigits ≤ run.1.length &&
          run.1.length ≤ maxDigits then
        some run.1
      else
        scanDigitRuns minDigits maxDigits fuel (some c) rest
    else
      scanDigitRuns minDigits maxDigits fuel (some c) rest

/-- _extract_report_no_from_text. On a skipped run the scan resumes one
character later; interior digit positions cannot start a match (the
character before them is a digit, a word character), matching the regex. -/
def extractReportNoFromText (text : Option String) (minDigits maxDigits : Nat) :
    Option String :=
  match text with
  | none => none
  | some t =>
    if t = "" then none
    else (scanDigitRuns minDigits maxDigits t.data.length none t.data).map
      String.mk

/-- The OCR-concatenation correction test: extraction and hint both
normalized, different, and the hint a contiguous substring of the
extraction. -/
def containFix (reportNo targetNorm : Option String) : Bool :=
  match reportNo, targetNorm with
  | some r, some t => r ≠ t && containsSub t.data r.data
  | _, _ => false

structure AnalyzerConfig where
  model : String := "gpt-4.1-mini"
  model_retries : Nat := 3
  retry_backoff_sec : ℚ := 4 / 5
  strict_mode : Bool := true
  min_ingredients_len : Nat := 10
  min_report_digits : Nat := 10
  max_report_digits : Nat := 16
  pass3_retry_on_429_max_attempts : Nat := 6
  pass3_retry_on_429_base_sec : ℚ := 2
  pass3_retry_on_429_max_sec : ℚ := 30
  pass3_provider : String := "gemini"
  pass3_gemini_model : String := "gemini-2.0-flash"
  pass2a_provider : String := "openai"
  pass2a_openai_model : String := "gpt-4o-mini"
  pass2a_gemini_model : String := "gemini-2.0-flash"

def cfgDefault : AnalyzerConfig := {}

/-- _resolve_report_no. -/
def resolveReportNo (cfg : AnalyzerConfig)
    (modelReportNo fullText target : Option String) : Option String :=
  let targetNorm := normalizeReportNo target cfg.min_report_digits 24
  let r0 := normalizeReportNo modelReportNo cfg.min_report_digits 24
  if containFix r0 targetNorm then targetNorm
  else
    let r1 :=
      if r0 = none then
        normalizeReportNo
          (extractReportNoFromText fullText cfg.min_report_digits
            cfg.max_report_digits)
          cfg.min_report_digits cfg.max_report_digits
      else r0
    if containFix r1 targetNorm then targetNorm
    else normalizeReportNo r1 cfg.min_report_digits cfg.max_report_digits

example :
    resolveReportNo cfgDefault (some "12034567891234") none
      (some "1234567891234") = some "12034567891234" := by decide

example :
    resolveReportNo cfgDefault (some "11234567891234") none
      (some "1234567891234") = some "1234567891234" := by decide

/-- _looks_like_ingredients_text. -/
def looksLikeIngredientsText (cfg : AnalyzerConfig) (text : Option String) :
    Bool :=
  let value := pyStrip (text.getD "").data
  if value.length < cfg.min_ingredients_len then false
  else
    let hasSep := value.contains ',' || value.contains '·' ||
      value.contains '/' || value.contains '，'
    let lowerV := lowerChars value
    let hasKeyword := containsSub "원재료".data lowerV ||
      containsSub "ingredients".data lowerV || containsSub "함량".data lowerV
    hasSep || hasKeyword

/-- _looks_like_nutrition_text. -/
def looksLikeNutritionText (text : Option String) : Bool :=
  let value := lowerChars (pyStrip (text.getD "").data)
  if value.length < 8 then false
  else
    ["영양성분", "영양정보", "나트륨", "탄수화물", "단백질", "지방",
      "calories", "nutrition"].any
      (fun kw => containsSub kw.data value)

/-- The sentence-style allergy-notice cut markers of _split_allergen_notice. -/
def cutMarkers : List String :=
  ["알레르기", "알레르기 유발", "알레르기유발", "알레르겐", "이 제품은",
    "본 제품은", "같은 제조시설", "교차오염", "함유되어", "함유되어있"]

/-- Earliest occurrence over all cut markers (value and markers lowercased,
indices refer to the original string since lowering preserves length). -/
def minCutIdx (valueLower : Chars) : Option Nat :=
  (cutMarkers.filterMap
      (fun m => findSub (lowerChars m.data) valueLower)).foldl
    (fun acc i =>
      match acc with
      | none => some i
      | some j => some (min j i))
    none

/-- The closed allergen-word alternation of the tail regex, in source
order. No word is a prefix of another, so at most one matches at any
position and the regex alternation is deterministic. -/
def allergenWordsKo : List String :=
  ["메밀", "밀", "대두", "호두", "땅콩", "잣", "계란", "난류", "우유",
    "토마토", "새우", "게", "오징어", "고등어", "조개류", "굴", "전복",
    "홍합", "복숭아", "돼지고기", "쇠고기", "닭고기", "아황산류"]

def matchAllergenWord : List String → Chars → Option Chars
  | [], _ => none
  | w :: ws, s =>
    if leadsWith w.data s then some (s.drop w.data.length)
    else matchAllergenWord ws s

/-- After the first allergen word of the tail pattern: zero or more
"\s*[,/]\s*word" repetitions, then "\s*(함유|포함)\s*$". The next
non-space character decides between repetition and exit, so the regex
needs no backtracking here. -/
def tailLoop : Nat → Chars → Bool
  | 0, _ => false
  | fuel + 1, s =>
    let s1 := dropWhileSpace s
    match s1 with
    | [] => false
    | c :: rest =>
      if c = ',' || c = '/' then
        match matchAllergenWord allergenWordsKo (dropWhileSpace rest) with
        | some r => tailLoop fuel r
        | none => false
      else
        if leadsWith "함유".data s1 then
          dropWhileSpace (s1.drop 2) = []
        else if leadsWith "포함".data s1 then
          dropWhileSpace (s1.drop 2) = []
        else false

def tailAfterOpener (s : Chars) : Bool :=
  match matchAllergenWord allergenWordsKo s with
  | some r => tailLoop (r.length + 1) r
  | none => false

/-- Does the tail pattern match starting at this suffix? The opener is
"(?:^|[,/]\s*)": the caret alternative only at the start of the string. -/
def tailMatchFrom (s : Chars) (atStart : Bool) : Bool :=
  (atStart && tailAfterOpener s) ||
    (match s with
     | c :: rest =>
       if c = ',' || c = '/' then tailAfterOpener (dropWhileSpace rest)
       else false
     | [] => false)

/-- re.search of the tail pattern: index of the leftmost match. -/
def tailSearchGo : Nat → Chars → Option Nat
  | i, [] => if tailMatchFrom [] (i == 0) then some i else none
  | i, c :: t =>
    if tailMatchFrom (c :: t) (i == 0) then some i
    else tailSearchGo (i + 1) t

def tailSearch (s : Chars) : Option Nat := tailSearchGo 0 s

/-- The closed allergen-term set used by the conservative token cleanup
(same terms as the alternation). -/
def allergenSetKo : List String := allergenWordsKo

/-- re.sub(r"(함유|포함)", "", t): remove all occurrences, scanning left
to right with 함유 tried first at each position. -/
def removeYuPo : Nat → Chars → Chars
  | 0, s => s
  | _ + 1, [] => []
  | fuel + 1, c :: rest =>
    if leadsWith "함유".data (c :: rest) then
      removeYuPo fuel ((c :: rest).drop 2)
    else if leadsWith "포함".data (c :: rest) then
      removeYuPo fuel ((c :: rest).drop 2)
    else c :: removeYuPo fuel rest

/-- One token of the conservative cleanup loop: keep it, or classify it as
a removable allergen-only "...함유/포함" token. -/
def tokenRemovable (token : Chars) : Bool :=
  let t := token.filter (fun c => c ≠ ' ')
  if containsSub "함유".data t || containsSub "포함".data t then
    if t.contains '%' || t.contains '(' || t.contains ')' ||
        t.any Char.isDigit then
      false
    else
      let core := removeYuPo t.length t
      let coreParts := (splitChars
        (fun c => c = '·' || c = ',' || isSpaceChar c) core).filter
        (fun x => x ≠ [])
      coreParts ≠ [] && coreParts.all
        (fun x => allergenSetKo.any (fun w => w.data = x))
  else false

def stripPunctSet : Chars := [' ', ',', '.', ';', ':', '/']

/-- _split_allergen_notice: returns (clean ingredients text, allergen
text). -/
def splitAllergenNotice (text : Option String) :
    Option String × Option String :=
  let value0 := pyStrip (text.getD "").data
  if value0 = [] then (none, none)
  else
    let original := value0
    -- sentence-style markers: cut from the earliest occurrence
    let cutIdx := minCutIdx (lowerChars value0)
    let markerRemoved : Option Chars :=
      match cutIdx with
      | some i => some (pyStripSet stripPunctSet (value0.drop i))
      | none => none
    let value1 :=
      match cutIdx with
      | some i => pyRstripSet stripPunctSet (value0.take i)
      | none => value0
    -- trailing ", 대두, 우유 함유/포함" tail
    let tailIdx := tailSearch value1
    let tailRemoved : Option Chars :=
      match tailIdx with
      | some i => some (pyStripSet stripPunctSet (value1.drop i))
      | none => none
    let value2 :=
      match tailIdx with
      | some i => pyRstripSet stripPunctSet (value1.take i)
      | none => value1
    -- conservative per-token cleanup
    let parts := splitChars (fun c => c = ',' || c = '/') value2
    let stepped := parts.foldl
      (fun (acc : List Chars × List Chars) part =>
        let token := pyStrip part
        if token = [] then acc
        else if tokenRemovable token then (acc.1, acc.2 ++ [token])
        else (acc.1 ++ [token], acc.2))
      ([], [])
    let kept := stepped.1
    let removedTokens := stepped.2
    let cleaned := pyStripSet [' ', ','] (joinSep ", ".data kept)
    let removedJoined := pyStripSet [' ', ','] (joinSep ", ".data removedTokens)
    let allergenBits :=
      ([markerRemoved, tailRemoved,
        if removedJoined = [] then none else some removedJoined].filterMap
        id).filter (fun x => x ≠ [])
    let allergenText0 := pyStripSet [' ', '|'] (joinSep " | ".data allergenBits)
    let allergenText :=
      if allergenText0 = [] && cleaned ≠ original then
        pyStripSet stripPunctSet (replaceAll cleaned [] original)
      else allergenText0
    ((if cleaned = [] then none else some (String.mk cleaned)),
      (if allergenText = [] then none else some (String.mk allergenText)))

example :
    splitAllergenNotice (some "밀가루, 설탕, 대두 함유") =
      (some "밀가루, 설탕", some "대두 함유") := by decide

example :
    splitAllergenNotice (some "효소스테비아대두함유향료") =
      (some "효소스테비아대두함유향료", none) := by decide

def placeholderKeywords : List String :=
  ["예시", "샘플", "dummy", "test", "placeholder", "aaaa", "xxxx", "yyy",
    "zzz"]

def maskCharsList : Chars :=
  ['○', '●', '□', '■', '△', '▲', '▽', '▼', '◇', '◆', '*', '^', 'x', 'X']

/-- Four or more identical consecutive characters: re.search(r"(.)\1{3,}"). -/
def hasRepeatRun : Chars → Bool
  | a :: b :: c :: d :: rest =>
    (a = b && b = c && c = d) || hasRepeatRun (b :: c :: d :: rest)
  | _ => false

def isDashSym (c : Char) : Bool :=
  c = '^' || c = '*' || c = '#' || c = '=' || c = '_' || c = '-'

/-- Three or more consecutive characters of the class [\^*#=_\-]. -/
def hasSymbolRun : Chars → Bool
  | a :: b :: c :: rest =>
    (isDashSym a && isDashSym b && isDashSym c) || hasSymbolRun (b :: c :: rest)
  | _ => false

def isKoSyllable (c : Char) : Bool :=
  0xAC00 ≤ c.toNat && c.toNat ≤ 0xD7A3

/-- The regex class [A-Za-z가-힣] of the word-token scan. -/
def isMeaningfulChar (c : Char) : Bool := c.isAlpha || isKoSyllable c

/-- re.findall(r"[A-Za-z가-힣]+", value): maximal runs. -/
def wordTokens : Nat → Chars → List Chars
  | 0, _ => []
  | _ + 1, [] => []
  | fuel + 1, c :: rest =>
    if isMeaningfulChar c then
      let run := (c :: rest).takeWhile isMeaningfulChar
      run :: wordTokens fuel ((c :: rest).dropWhile isMeaningfulChar)
    else wordTokens fuel rest

/-- _placeholder_reason. -/
def placeholderReason (text : Option String) (field : String) :
    Option String :=
  let value := pyStrip (text.getD "").data
  if value = [] then some (field ++ "_missing")
  else
    let lower := lowerChars value
    if placeholderKeywords.any (fun k => containsSub k.data lower) then
      some (field ++ "_contains_placeholder_keyword")
    else
      let compact := value.filter (fun c => !isSpaceChar c)
      if compact = [] then some (field ++ "_empty")
      else
        let maskCnt := (compact.filter (fun c => maskCharsList.contains c)).length
        if maskCnt > 0 &&
            mkRat 1 5 ≤ mkRat maskCnt (max 1 compact.length) then
          some (field ++ "_masked_text")
        else if hasRepeatRun compact then some (field ++ "_repeated_chars")
        else if hasSymbolRun compact then some (field ++ "_repeated_symbols")
        else
          let tokens := wordTokens value.length value
          let uniqueCount := ((tokens.map lowerChars).dedup).length
          if (field = "product_name" || field = "ingredients") &&
              tokens.length = 0 then
            some (field ++ "_no_meaningful_tokens")
          else if (field = "product_name" || field = "ingredients") &&
              uniqueCount ≤ 1 && 8 ≤ compact.length then
            some (field ++ "_low_token_diversity")
          else
            let symbolCnt := (value.filter
              (fun c => !(isMeaningfulChar c || c.isDigit || isSpaceChar c))).length
            if mkRat 9 20 ≤ mkRat symbolCnt (max 1 value.length) then
              some (field ++ "_high_symbol_ratio")
            else none

example : placeholderReason none "product_name" = some "product_name_missing" := by decide

example :
    placeholderReason (some "AAAA AAAA AAAA") "ingredients" =
      some "ingredients_contains_placeholder_keyword" := by decide

/-- Full-string match of (\d)\1{9,15}: one digit repeated 10 to 16 times. -/
def repeatedDigitFull (s : Chars) : Bool :=
  match s with
  | c :: rest =>
    c.isDigit && rest.all (fun x => x = c) && 10 ≤ s.length && s.length ≤ 16
  | [] => false

/-- Full-string match of \d{10,16}. -/
def digitsFull1016 (s : Chars) : Bool :=
  s.all Char.isDigit && 10 ≤ s.length && s.length ≤ 16

example : repeatedDigitFull "1111111111111".data = true := by decide

/-- The quality_flags mapping carried through the pipeline. An `Option
Bool` field models the tri-state of the Python dict values (None / False /
True); a key absent from a given result shape stays `none`. -/
structure QualityFlags where
  is_real_world_photo : Option Bool := none
  is_blurry_or_lowres : Option Bool := none
  is_wrinkled_or_distorted : Option Bool := none
  is_cropped_or_partial : Option Bool := none
  is_clear_text : Option Bool := none
  is_full_frame : Option Bool := none
  is_flat_undistorted : Option Bool := none
  has_ingredients_section : Option Bool := none
  has_report_number_label : Option Bool := none
  has_product_name : Option Bool := none
  has_single_product : Option Bool := none
  has_nutrition_section : Option Bool := none
  key_fields_fully_visible : Option Bool := none
  no_glare_on_key_fields : Option Bool := none
  no_object_occlusion_on_key_fields : Option Bool := none
  no_any_text_occlusion_on_key_fields : Option Bool := none
  no_glare_overlap_on_key_text : Option Bool := none
  no_occlusion_overlap_on_key_text : Option Bool := none
  no_white_circle_overlay_on_key_fields : Option Bool := none
  no_wrinkle_fold_occlusion_on_key_fields : Option Bool := none
  glare_overlap_on_key_text : Option Bool := none
  occlusion_overlap_on_key_text : Option Bool := none
  any_text_occlusion_on_key_fields : Option Bool := none
  white_circle_overlay_on_key_fields : Option Bool := none
  wrinkle_fold_occlusion_on_key_fields : Option Bool := none
  pass2a_ok : Option Bool := none
  pass2b_executed : Option Bool := none
  ingredients_complete : Option Bool := none
  report_number_complete : Option Bool := none
  product_name_complete : Option Bool := none
  nutrition_complete : Option Bool := none
deriving DecidableEq

/-- Normalized nested sub-ingredient node produced by
_normalize_sub_ingredient_node. -/
inductive SubIngOut where
  | mk (name origin origin_detail amount : Option String)
      (sub_ingredients : List SubIngOut)

/-- A top-level structured ingredient item of the Pass4 output. -/
structure IngItemOut where
  ingredient_name : Option String := none
  origin : Option String := none
  origin_detail : Option String := none
  amount : Option String := none
  sub_ingredients : List SubIngOut := []

structure NutItemOut where
  name : Option String := none
  value : Option String := none
  unit : Option String := none
  daily_value : Option String := none

structure ReportNumberValidation where
  is_valid : Bool := false
  normalized_report_number : Option String := none
  reason : String := ""
deriving DecidableEq

/-- One record type hosting every dict shape the analyzer returns
(precheck pass/fail, gate result, error result, normalize result); a field
a given shape does not set keeps its conservative default, mirroring a dict
without that key. -/
structure AnalysisRec where
  itemMnftrRptNo : Option String := none
  ingredients_text : Option String := none
  allergen_text : Option String := none
  nutrition_text : Option String := none
  note : String := ""
  is_flat : Option Bool := none
  is_table_format : Bool := false
  has_rect_ingredient_box : Bool := false
  has_report_label : Bool := false
  is_designed_graphic : Option Bool := none
  has_real_world_objects : Option Bool := none
  brand : Option String := none
  product_name_in_image : Option String := none
  manufacturer : Option String := none
  full_text : Option String := none
  has_ingredients : Bool := false
  quality_gate_pass : Bool := false
  quality_score : Nat := 0
  quality_fail_reasons : List String := []
  quality_flags : QualityFlags := {}
  ai_decision : String := ""
  ai_suitability : String := ""
  ai_decision_confidence : Nat := 0
  ai_decision_reason : String := ""
  raw_model_text : Option String := none
  raw_model_text_pass1 : Option String := none
  raw_model_text_pass2 : Option String := none
  raw_model_text_pass2a : Option String := none
  raw_model_text_pass2b : Option String := none
  raw_model_text_pass3 : Option String := none
  raw_model_text_pass4 : Option String := none
  raw_model_text_pass4_ingredients : Option String := none
  raw_model_text_pass4_nutrition : Option String := none
  raw_api_response : Option String := none
  raw_api_response_pass2a : Option String := none
  raw_api_response_pass2b : Option String := none
  raw_api_response_pass4 : Option String := none
  raw_api_response_pass4_ingredients : Option String := none
  raw_api_response_pass4_nutrition : Option String := none
  source_model : String := ""
  source_model_pass2a : String := ""
  source_model_pass2b : String := ""
  precheck_pass : Option Bool := none
  precheck_reason : Option String := none
  precheck_mime_type : Option String := none
  ingredient_items : List IngItemOut := []
  ingredient_items_reason : Option String := none
  nutrition_items : List NutItemOut := []
  report_number_validation : Option ReportNumberValidation := none
  pass4_ai_error : Option String := none

/-- Parsed Pass2A model JSON: exactly the keys run_pass2_gate reads. -/
structure Pass2AParsed where
  is_clear_text : Option Bool := none
  is_blurry_or_lowres : Option Bool := none
  is_full_frame : Option Bool := none
  is_cropped_or_partial : Option Bool := none
  is_flat_undistorted : Option Bool := none
  is_wrinkled_or_distorted : Option Bool := none
  has_single_product : Option Bool := none
  key_fields_fully_visible : Option Bool := none
  no_glare_on_key_fields : Option Bool := none
  has_glare_on_key_fields : Option Bool := none
  no_object_occlusion_on_key_fields : Option Bool := none
  has_object_occlusion_on_key_fields : Option Bool := none
  no_any_text_occlusion_on_key_fields : Option Bool := none
  no_glare_overlap_on_key_text : Option Bool := none
  glare_overlap_on_key_text : Option Bool := none
  no_occlusion_overlap_on_key_text : Option Bool := none
  occlusion_overlap_on_key_text : Option Bool := none
  no_white_circle_overlay_on_key_fields : Option Bool := none
  no_wrinkle_fold_occlusion_on_key_fields : Option Bool := none
  is_real_world_photo : Option Bool := none
  reason : Option String := none
deriving DecidableEq

structure Pass2BParsed where
  has_ingredients_section : Option Bool := none
  has_report_number_label : Option Bool := none
  has_product_name : Option Bool := none
  has_nutrition_section : Option Bool := none
  reason : Option String := none
deriving DecidableEq

structure Pass3IngParsed where
  reason : Option String := none
  product_report_number : Option String := none
  ingredients_text : Option String := none
  allergen_text : Option String := none
  product_name_in_image : Option String := none
  full_text : Option String := none
  has_report_label : Option Bool := none
  ingredients_complete : Option Bool := none
  report_number_complete : Option Bool := none
  product_name_complete : Option Bool := none
deriving DecidableEq

structure Pass3NutParsed where
  reason : Option String := none
  nutrition_text : Option String := none
  full_text : Option String := none
  nutrition_complete : Option Bool := none
deriving DecidableEq

/-- An un-normalized sub-ingredient JSON node (keys read by
_normalize_sub_ingredient_node). -/
inductive SubIngNode where
  | mk (name ingredient_name origin origin_detail amount : Option String)
      (sub_ingredients : List SubIngNode)

structure IngItemNode where
  ingredient_name : Option String := none
  origin : Option String := none
  origin_detail : Option String := none
  amount : Option String := none
  sub_ingredients : List SubIngNode := []

structure Pass4IngParsed where
  reason : Option String := none
  ingredients_items : List IngItemNode := []

structure NutItemNode where
  name : Option String := none
  value : Option String := none
  unit : Option String := none
  daily_value : Option String := none

structure Pass4NutParsed where
  nutrition_items : List NutItemNode := []

/-- The outcome the pipeline sees from one (already retried) model call:
either the raised error's text, or (raw_text, parsed, raw_api_response). -/
abbrev CallOut (α : Type) := Except String (String × α × String)

/-- One oracle per analyze run: the image download outcome plus one net
outcome per model-call site. -/
structure ModelOracle where
  download : Except String (List Nat × String) := .error "no_download"
  pass2a : CallOut Pass2AParsed := .error "no_pass2a"
  pass2b : CallOut Pass2BParsed := .error "no_pass2b"
  pass3ing : CallOut Pass3IngParsed := .error "no_pass3ing"
  pass3nut : CallOut Pass3NutParsed := .error "no_pass3nut"
  pass4ing : CallOut Pass4IngParsed := .error "no_pass4ing"
  pass4nut : CallOut Pass4NutParsed := .error "no_pass4nut"

/-- Which model-call sites an entry point actually invoked. -/
inductive CallTag where
  | p2a | p2b | p3ing | p3nut | p4ing | p4nut
deriving DecidableEq

/-- _error_result. Every exception the analyzer wraps is a RuntimeError,
so the type name in the fail-reason code is a constant. -/
def errorResult (cfg : AnalyzerConfig) (errMsg : String)
    (lastRawText : Option String) : AnalysisRec :=
  let errText := "chatgpt analyze error: " ++ errMsg ++
    " (hint: 429/quota, timeout, 또는 일시적 서비스 오류 가능)"
  let fallbackRaw := pyOrStr (pyStripStr (lastRawText.getD "")) errMsg
  { itemMnftrRptNo := none
    ingredients_text := none
    allergen_text := none
    nutrition_text := none
    note := errText
    has_report_label := false
    has_ingredients := false
    quality_gate_pass := false
    quality_score := 0
    quality_fail_reasons := ["runtime_error:RuntimeError"]
    quality_flags := {}
    ai_decision := "SKIP"
    ai_suitability := "부적합"
    ai_decision_confidence := 0
    ai_decision_reason := errText
    raw_model_text := some fallbackRaw
    raw_model_text_pass1 := some fallbackRaw
    raw_model_text_pass2 := none
    raw_api_response := some fallbackRaw
    source_model := cfg.model }

def SUPPORTED_IMAGE_MIMES : List String :=
  ["image/png", "image/jpeg", "image/gif", "image/webp"]

/-- pass1_precheck._normalize_mime. -/
def normalizeMime (mime : String) : String :=
  let m := String.mk (lowerChars (pyStrip mime.data))
  if m = "image/jpg" then "image/jpeg" else m

/-- pass1_precheck._mime_matches_signature; the image is a byte list. -/
def mimeMatchesSignature (mime : String) (imageBytes : List Nat) : Bool :=
  if imageBytes = [] then false
  else if mime = "image/png" then
    leadsWith' [0x89, 0x50, 0x4E, 0x47] imageBytes
  else if mime = "image/jpeg" then
    leadsWith' [0xFF, 0xD8] imageBytes
  else if mime = "image/gif" then
    leadsWith' [0x47, 0x49, 0x46, 0x38, 0x37, 0x61] imageBytes ||
      leadsWith' [0x47, 0x49, 0x46, 0x38, 0x39, 0x61] imageBytes
  else if mime = "image/webp" then
    leadsWith' [0x52, 0x49, 0x46, 0x46] imageBytes &&
      containsSub' [0x57, 0x45, 0x42, 0x50] (imageBytes.take 32)
  else false
where
  leadsWith' : List Nat → List Nat → Bool
    | [], _ => true
    | _ :: _, [] => false
    | a :: as, b :: bs => a = b && leadsWith' as bs
  containsSub' (needle : List Nat) : List Nat → Bool
    | [] => needle = []
    | c :: t => leadsWith' needle (c :: t) || containsSub' needle t

/-- run_pass1_precheck. -/
def runPass1Precheck (cfg : AnalyzerConfig) (imageBytes : List Nat)
    (mimeType : String) (imageUrl : Option String) : AnalysisRec :=
  let normalized := normalizeMime mimeType
  let reasons0 : List String :=
    if SUPPORTED_IMAGE_MIMES.contains normalized then []
    else ["unsupported_image_format:" ++ pyOrStr normalized "unknown"]
  let reasons1 :=
    reasons0 ++ (if imageBytes = [] then ["empty_image_bytes"] else [])
  let ok1 := reasons1 = []
  let reasons :=
    reasons1 ++
      (if ok1 && !mimeMatchesSignature normalized imageBytes then
        ["mime_signature_mismatch"]
      else [])
  if reasons = [] then
    { precheck_pass := some true
      precheck_reason := some "ok"
      precheck_mime_type := some normalized
      quality_gate_pass := true
      ai_decision := "READ"
      ai_suitability := "적합"
      ai_decision_confidence := 100
      ai_decision_reason := "precheck_ok"
      quality_fail_reasons := []
      quality_flags := {}
      raw_model_text := some "precheck_ok"
      raw_api_response := some "precheck_ok"
      source_model := cfg.model }
  else
    let reason0 := String.intercalate "," reasons
    let reason :=
      match imageUrl with
      | some u => reason0 ++ " | url=" ++ u
      | none => reason0
    { precheck_pass := some false
      precheck_reason := some reason
      precheck_mime_type := some normalized
      itemMnftrRptNo := none
      ingredients_text := none
      nutrition_text := none
      note := "precheck_skip: " ++ reason
      has_report_label := false
      has_ingredients := false
      quality_gate_pass := false
      quality_score := 0
      quality_fail_reasons := reasons.map (fun r => "precheck:" ++ r)
      quality_flags := {}
      ai_decision := "SKIP"
      ai_suitability := "부적합"
      ai_decision_confidence := 100
      ai_decision_reason := reason
      raw_model_text := some reason
      raw_model_text_pass1 := some reason
      raw_model_text_pass2 := none
      raw_api_response := some reason
      source_model := cfg.model }

/-- The twelve 2A quality judgments after the documented fallback
inference chain of run_pass2_gate. -/
structure Pass2ADerived where
  is_clear_text : Bool
  is_full_frame : Bool
  is_flat_undistorted : Bool
  has_single_product : Bool
  key_fields_fully_visible : Bool
  no_glare_on_key_fields : Bool
  no_object_occlusion_on_key_fields : Bool
  no_any_text_occlusion_on_key_fields : Bool
  no_glare_overlap_on_key_text : Bool
  no_occlusion_overlap_on_key_text : Bool
  no_white_circle_overlay_on_key_fields : Bool
  no_wrinkle_fold_occlusion_on_key_fields : Bool
deriving DecidableEq

def pass2aDerived (p : Pass2AParsed) : Pass2ADerived :=
  let is_clear_text :=
    match p.is_clear_text with
    | none => !(p.is_blurry_or_lowres.getD false)
    | some b => b
  let is_full_frame :=
    match p.is_full_frame with
    | none => !(p.is_cropped_or_partial.getD false)
    | some b => b
  let is_flat_undistorted :=
    match p.is_flat_undistorted with
    | none => !(p.is_wrinkled_or_distorted.getD false)
    | some b => b
  let has_single_product := p.has_single_product.getD false
  let key_fields_fully_visible :=
    match p.key_fields_fully_visible with
    | none => is_full_frame
    | some b => b
  let no_glare_on_key_fields :=
    match p.no_glare_on_key_fields with
    | none =>
      match p.has_glare_on_key_fields with
      | some g => !g
      | none => is_clear_text
    | some b => b
  let no_object_occlusion_on_key_fields :=
    match p.no_object_occlusion_on_key_fields with
    | none =>
      match p.has_object_occlusion_on_key_fields with
      | some g => !g
      | none => key_fields_fully_visible
    | some b => b
  let no_any_text_occlusion_on_key_fields :=
    match p.no_any_text_occlusion_on_key_fields with
    | none => no_object_occlusion_on_key_fields && key_fields_fully_visible
    | some b => b
  let no_glare_overlap_on_key_text :=
    match p.no_glare_overlap_on_key_text with
    | none =>
      match p.glare_overlap_on_key_text with
      | some g => !g
      | none => no_glare_on_key_fields
    | some b => b
  let no_occlusion_overlap_on_key_text :=
    match p.no_occlusion_overlap_on_key_text with
    | none =>
      match p.occlusion_overlap_on_key_text with
      | some g => !g
      | none => no_object_occlusion_on_key_fields
    | some b => b
  let no_white_circle_overlay_on_key_fields :=
    match p.no_white_circle_overlay_on_key_fields with
    | none => no_object_occlusion_on_key_fields
    | some b => b
  let no_wrinkle_fold_occlusion_on_key_fields :=
    match p.no_wrinkle_fold_occlusion_on_key_fields with
    | none => is_flat_undistorted && key_fields_fully_visible
    | some b => b
  { is_clear_text := is_clear_text
    is_full_frame := is_full_frame
    is_flat_undistorted := is_flat_undistorted
    has_single_product := has_single_product
    key_fields_fully_visible := key_fields_fully_visible
    no_glare_on_key_fields := no_glare_on_key_fields
    no_object_occlusion_on_key_fields := no_object_occlusion_on_key_fields
    no_any_text_occlusion_on_key_fields := no_any_text_occlusion_on_key_fields
    no_glare_overlap_on_key_text := no_glare_overlap_on_key_text
    no_occlusion_overlap_on_key_text := no_occlusion_overlap_on_key_text
    no_white_circle_overlay_on_key_fields := no_white_circle_overlay_on_key_fields
    no_wrinkle_fold_occlusion_on_key_fields :=
      no_wrinkle_fold_occlusion_on_key_fields }

/-- The ordered 2A fail-check codes of run_pass2_gate. -/
def failChecks2A (p : Pass2AParsed) : List String :=
  let d := pass2aDerived p
  (if d.is_clear_text then [] else ["not_clear_text"]) ++
  (if d.is_full_frame then [] else ["not_full_frame"]) ++
  (if d.is_flat_undistorted then [] else ["not_flat_undistorted"]) ++
  (if d.has_single_product then [] else ["not_single_product"]) ++
  (if d.key_fields_fully_visible then [] else ["key_fields_not_fully_visible"]) ++
  (if d.no_glare_on_key_fields then [] else ["glare_on_key_fields"]) ++
  (if d.no_object_occlusion_on_key_fields then []
   else ["object_occlusion_on_key_fields"]) ++
  (if d.no_any_text_occlusion_on_key_fields then []
   else ["any_text_occlusion_on_key_fields"]) ++
  (if d.no_glare_overlap_on_key_text then [] else ["glare_overlap_on_key_text"]) ++
  (if d.no_occlusion_overlap_on_key_text then []
   else ["occlusion_overlap_on_key_text"]) ++
  (if d.no_white_circle_overlay_on_key_fields then []
   else ["white_circle_overlay_on_key_fields"]) ++
  (if d.no_wrinkle_fold_occlusion_on_key_fields then []
   else ["wrinkle_fold_occlusion_on_key_fields"])

/-- The 2A-all-pass condition gating the 2B call. -/
def pass2aOk (p : Pass2AParsed) : Bool := decide (failChecks2A p = [])

/-- The success-path record of run_pass2_gate. `pass2bOut` is `some` iff
2A passed and carries the 2B call result. -/
def pass2GateRec (cfg : AnalyzerConfig) (rawA : String) (pa : Pass2AParsed)
    (apiA : String) (pass2bOut : Option (String × Pass2BParsed × String)) :
    AnalysisRec :=
  let d := pass2aDerived pa
  let ok2a := pass2aOk pa
  let fail0 := failChecks2A pa ++
    (if ok2a then [] else ["pass2b_skipped_by_pass2a_fail"])
  let pb : Pass2BParsed :=
    match pass2bOut with
    | some (_, pbv, _) => pbv
    | none => {}
  let hasIngredients := ok2a && pb.has_ingredients_section.getD false
  let hasReportLabel := ok2a && pb.has_report_number_label.getD false
  let hasProductName := ok2a && pb.has_product_name.getD false
  let hasNutrition := ok2a && pb.has_nutrition_section.getD false
  let failChecks := fail0 ++
    (if ok2a && !hasIngredients then ["missing_ingredients_section"] else []) ++
    (if ok2a && !hasReportLabel then ["missing_report_label"] else []) ++
    (if ok2a && !hasProductName then ["missing_product_name"] else [])
  let decisionRaw := if failChecks = [] then "READ" else "SKIP"
  let suitabilityRaw := if decisionRaw = "READ" then "적합" else "부적합"
  let totalChecks := 15
  let passedChecks := totalChecks -
    (failChecks.filter (fun c => c ≠ "pass2b_skipped_by_pass2a_fail")).length
  let qualityScore := min 100 ((passedChecks * 100) / totalChecks)
  let reasonA := pyStripStr (pa.reason.getD "")
  let reasonB :=
    if ok2a then pyStripStr (pb.reason.getD "")
    else "pass2b_skipped_by_pass2a_fail"
  let decisionReason0 := pyStripStr
    (String.intercalate " | " (([reasonA, reasonB].filter (fun x => x ≠ ""))))
  let decisionReason :=
    if failChecks ≠ [] then
      let ruleReason := String.intercalate "," failChecks
      if decisionReason0 ≠ "" then ruleReason ++ " | " ++ decisionReason0
      else ruleReason
    else if decisionReason0 = "" then "all_checks_passed"
    else decisionReason0
  let qualityFailReasons := failChecks ++
    (if decisionRaw ≠ "READ" then
      ["ai_skip:" ++ pyOrStr decisionReason "pass2_skip"]
    else [])
  let rawTextB : Option String :=
    match pass2bOut with
    | some (r, _, _) => some r
    | none => none
  let apiB : Option String :=
    match pass2bOut with
    | some (_, _, a) => some a
    | none => none
  let rawModelTextPass2 := pyStripStr
    ("[PASS2-A]\n" ++ rawA ++ "\n\n[PASS2-B]\n" ++
      (match rawTextB with
       | some r => r
       | none => "(skipped_by_pass2a_fail)"))
  let rawApiResponse := pyStripStr
    ("[PASS2-A]\n" ++ apiA ++ "\n\n[PASS2-B]\n" ++
      (match apiB with
       | some a => a
       | none => "(skipped_by_pass2a_fail)"))
  { note := pyOrStr decisionReason "pass2(2a+2b)"
    quality_gate_pass := decide (decisionRaw = "READ")
    quality_score := qualityScore
    quality_fail_reasons := qualityFailReasons
    quality_flags :=
      { is_real_world_photo := some (pa.is_real_world_photo.getD false)
        is_blurry_or_lowres := some (!d.is_clear_text)
        is_wrinkled_or_distorted := some (!d.is_flat_undistorted)
        is_cropped_or_partial := some (!d.is_full_frame)
        is_clear_text := some d.is_clear_text
        is_full_frame := some d.is_full_frame
        is_flat_undistorted := some d.is_flat_undistorted
        has_ingredients_section := some hasIngredients
        has_report_number_label := some hasReportLabel
        has_product_name := some hasProductName
        has_single_product := some d.has_single_product
        has_nutrition_section := some hasNutrition
        key_fields_fully_visible := some d.key_fields_fully_visible
        no_glare_on_key_fields := some d.no_glare_on_key_fields
        no_object_occlusion_on_key_fields :=
          some d.no_object_occlusion_on_key_fields
        no_any_text_occlusion_on_key_fields :=
          some d.no_any_text_occlusion_on_key_fields
        no_glare_overlap_on_key_text := some d.no_glare_overlap_on_key_text
        no_occlusion_overlap_on_key_text :=
          some d.no_occlusion_overlap_on_key_text
        no_white_circle_overlay_on_key_fields :=
          some d.no_white_circle_overlay_on_key_fields
        no_wrinkle_fold_occlusion_on_key_fields :=
          some d.no_wrinkle_fold_occlusion_on_key_fields
        glare_overlap_on_key_text := some (!d.no_glare_overlap_on_key_text)
        occlusion_overlap_on_key_text :=
          some (!d.no_occlusion_overlap_on_key_text)
        any_text_occlusion_on_key_fields :=
          some (!d.no_any_text_occlusion_on_key_fields)
        white_circle_overlay_on_key_fields :=
          some (!d.no_white_circle_overlay_on_key_fields)
        wrinkle_fold_occlusion_on_key_fields :=
          some (!d.no_wrinkle_fold_occlusion_on_key_fields)
        pass2a_ok := some ok2a
        pass2b_executed := some ok2a }
    ai_decision := decisionRaw
    ai_suitability := suitabilityRaw
    ai_decision_confidence := 100
    ai_decision_reason :=
      pyOrStr decisionReason
        (if decisionRaw = "READ" then "pass2_read" else "pass2_skip")
    raw_model_text := some rawModelTextPass2
    raw_model_text_pass2 := some rawModelTextPass2
    raw_model_text_pass2a := some rawA
    raw_model_text_pass2b := rawTextB
    raw_api_response := some rawApiResponse
    raw_api_response_pass2a := some apiA
    raw_api_response_pass2b := apiB
    source_model_pass2a :=
      if String.mk (lowerChars cfg.pass2a_provider.data) = "gemini" then
        cfg.pass2a_gemini_model
      else cfg.pass2a_openai_model
    source_model_pass2b := cfg.model
    source_model := cfg.model }

/-- run_pass2_gate, with the list of model-call sites it invoked. -/
def runPass2Gate (cfg : AnalyzerConfig) (o : ModelOracle) :
    AnalysisRec × List CallTag :=
  match o.pass2a with
  | .error e => (errorResult cfg e none, [.p2a])
  | .ok (rawA, pa, apiA) =>
    if pass2aOk pa then
      match o.pass2b with
      | .error e => (errorResult cfg e (some rawA), [.p2a, .p2b])
      | .ok bOut => (pass2GateRec cfg rawA pa apiA (some bOut), [.p2a, .p2b])
    else (pass2GateRec cfg rawA pa apiA none, [.p2a])

/-- The dict shape returned by run_pass3_extract (success and error
variants share it; the error variant sets `error`). -/
structure Pass3Result where
  error : Option String := none
  note : Option String := none
  product_report_number : Option String := none
  ingredients_text : Option String := none
  allergen_text : Option String := none
  nutrition_text : Option String := none
  product_name_in_image : Option String := none
  full_text : Option String := none
  has_report_label : Bool := false
  ingredients_complete : Bool := false
  report_number_complete : Bool := false
  product_name_complete : Bool := false
  nutrition_complete : Bool := false
  raw_model_text : Option String := none
  raw_model_text_pass3 : Option String := none
  raw_model_text_pass3_ingredients : Option String := none
  raw_model_text_pass3_nutrition : Option String := none
  raw_api_response : Option String := none
  raw_api_response_pass3_ingredients : Option String := none
  raw_api_response_pass3_nutrition : Option String := none
  source_model : String := ""
deriving DecidableEq

def pass3SourceModel (cfg : AnalyzerConfig) : String :=
  if cfg.pass3_provider = "gemini" then cfg.pass3_gemini_model else cfg.model

/-- run_pass3_extract. The include_nutrition flag is the
_pass3_include_nutrition instance flag made an explicit parameter. The
nutrition call sits inside the same try as the ingredients call: a
nutrition failure reaches the outer except and produces the error record,
with last_raw_text holding the ingredients raw text. -/
def runPass3Extract (cfg : AnalyzerConfig) (o : ModelOracle)
    (includeNutrition : Bool) : Pass3Result × List CallTag :=
  match o.pass3ing with
  | .error e =>
    ({ error := some e
       raw_model_text := none
       raw_model_text_pass3 := none
       source_model := pass3SourceModel cfg }, [.p3ing])
  | .ok (rawIng, pIng, apiIng) =>
    let nutritionStep : Except String (Option (String × Pass3NutParsed × String)) :=
      if includeNutrition then
        match o.pass3nut with
        | .error e => .error e
        | .ok out => .ok (some out)
      else .ok none
    match nutritionStep with
    | .error e =>
      ({ error := some e
         raw_model_text := some rawIng
         raw_model_text_pass3 := some rawIng
         source_model := pass3SourceModel cfg },
        [.p3ing, .p3nut])
    | .ok nutOut =>
      let pNut : Pass3NutParsed :=
        match nutOut with
        | some (_, p, _) => p
        | none => {}
      let rawNut : Option String :=
        match nutOut with
        | some (r, _, _) => some r
        | none => none
      let apiNut : Option String :=
        match nutOut with
        | some (_, _, a) => some a
        | none => none
      let rawModelTextPass3 := pyStripStr
        ("[PASS3-INGREDIENTS]\n" ++ rawIng ++ "\n\n[PASS3-NUTRITION]\n" ++
          (if includeNutrition then rawNut.getD ""
           else "(skipped_by_pass2_no_nutrition)"))
      let rawApiResponse := pyStripStr
        ("[PASS3-INGREDIENTS]\n" ++ apiIng ++ "\n\n[PASS3-NUTRITION]\n" ++
          (if includeNutrition then apiNut.getD ""
           else "(skipped_by_pass2_no_nutrition)"))
      ({ error := none
         note := some (pyOrStr (pIng.reason.getD "")
           (pyOrStr (pNut.reason.getD "") "ai(pass3)"))
         product_report_number := pIng.product_report_number
         ingredients_text := pIng.ingredients_text
         allergen_text := pIng.allergen_text
         nutrition_text := if includeNutrition then pNut.nutrition_text else none
         product_name_in_image := pIng.product_name_in_image
         full_text := pyOrOptStr pIng.full_text pNut.full_text
         has_report_label := pIng.has_report_label.getD false
         ingredients_complete := pIng.ingredients_complete.getD false
         report_number_complete := pIng.report_number_complete.getD false
         product_name_complete := pIng.product_name_complete.getD false
         nutrition_complete :=
           if includeNutrition then pNut.nutrition_complete.getD false else false
         raw_model_text := some rawModelTextPass3
         raw_model_text_pass3 := some rawModelTextPass3
         raw_model_text_pass3_ingredients := some rawIng
         raw_model_text_pass3_nutrition :=
           if includeNutrition then rawNut else none
         raw_api_response := some rawApiResponse
         raw_api_response_pass3_ingredients := some apiIng
         raw_api_response_pass3_nutrition :=
           if includeNutrition then apiNut else none
         source_model := pass3SourceModel cfg },
        if includeNutrition then [.p3ing, .p3nut] else [.p3ing])

/-- The lowercase transient-error signatures shared by the retry wrappers. -/
def retrySignatures : List String :=
  ["429", "resource_exhausted", "503", "deadline", "timeout",
    "temporarily unavailable"]

def isRetryableMsg (msg : String) : Bool :=
  let m := lowerChars msg.data
  retrySignatures.any (fun k => containsSub k.data m)

def is429Msg (msg : String) : Bool :=
  let m := lowerChars msg.data
  containsSub "429".data m || containsSub "resource_exhausted".data m

/-- _call_pass2_model_with_retry, run against an attempt-indexed stub.
Returns (outcome, number of model-call attempts, backoff delays slept).
Note: the source retries on EVERY exception while attempts remain; the
retryable classification only scales the delay by 2.5. -/
def pass2RetryGo (modelRetries : Nat) (backoff : ℚ)
    (stub : Nat → Except String α) :
    Nat → Nat → List ℚ → Except String α × Nat × List ℚ
  | 0, attempt, delays => (.error "pass2_call_failed", attempt, delays)
  | fuel + 1, attempt, delays =>
    match stub attempt with
    | .ok v => (.ok v, attempt + 1, delays)
    | .error e =>
      if attempt < modelRetries then
        let d := backoff * (attempt + 1 : ℚ) *
          (if isRetryableMsg e then 5 / 2 else 1)
        pass2RetryGo modelRetries backoff stub fuel (attempt + 1)
          (delays ++ [d])
      else (.error e, attempt + 1, delays)

def pass2Retry (cfg : AnalyzerConfig) (stub : Nat → Except String α) :
    Except String α × Nat × List ℚ :=
  pass2RetryGo cfg.model_retries cfg.retry_backoff_sec stub
    (cfg.model_retries + 1) 0 []

/-- _call_pass3_with_retry, run against an attempt-indexed stub and an
adversarial model of the uniform jitter. max_attempts starts at
max(1, model_retries + 1) and is raised to
pass3_retry_on_429_max_attempts whenever a rate-limit signature is seen.
Only retryable errors are retried; the others surface at once. -/
def pass3RetryGo (cfg : AnalyzerConfig) (stub : Nat → Except String α)
    (jitter : Nat → ℚ) :
    Nat → Nat → Nat → List ℚ → Except String α × Nat × List ℚ
  | 0, attempt, _, delays => (.error "unknown", attempt, delays)
  | fuel + 1, attempt, maxAttempts, delays =>
    if attempt < maxAttempts then
      match stub attempt with
      | .ok v => (.ok v, attempt + 1, delays)
      | .error e =>
        let is429 := is429Msg e
        let retryable := isRetryableMsg e
        let maxAttempts2 :=
          if is429 then max maxAttempts cfg.pass3_retry_on_429_max_attempts
          else maxAttempts
        if attempt < maxAttempts2 - 1 && retryable then
          let d :=
            if is429 then
              min cfg.pass3_retry_on_429_max_sec
                  (cfg.pass3_retry_on_429_base_sec * 2 ^ attempt) +
                jitter attempt
            else cfg.retry_backoff_sec * (attempt + 1 : ℚ) * (5 / 2)
          pass3RetryGo cfg stub jitter fuel (attempt + 1) maxAttempts2
            (delays ++ [d])
        else (.error e, attempt + 1, delays)
    else (.error "unknown", attempt, delays)

def pass3Retry (cfg : AnalyzerConfig) (stub : Nat → Except String α)
    (jitter : Nat → ℚ) : Except String α × Nat × List ℚ :=
  let maxAttempts := max 1 (cfg.model_retries + 1)
  pass3RetryGo cfg stub jitter
    (max maxAttempts cfg.pass3_retry_on_429_max_attempts + 1) 0 maxAttempts []

example :
    (pass3Retry cfgDefault (fun _ => (.error "401 unauthorized" : Except String Unit))
      (fun _ => 0)).2.1 = 1 := by decide

example :
    (pass2Retry cfgDefault (fun _ => (.error "401 unauthorized" : Except String Unit))).2.1 = 4 := by
  decide

example :
    (pass3Retry cfgDefault (fun _ => (.error "gemini_http_429: quota" : Except String Unit))
      (fun _ => 0)).2.1 = 6 := by decide

/-- Python `str(x).strip() or None` applied to an optional value. -/
def stripOrNone (o : Option String) : Option String :=
  match o with
  | none => none
  | some s => noneIfEmpty (pyStripStr s)

mutual
/-- _normalize_sub_ingredient_node (all nodes are dict-shaped in this
embedding, so the non-dict → None branch does not arise). -/
def normalizeSubIngNode : SubIngNode → SubIngOut
  | .mk name ingredient_name origin origin_detail amount children =>
    let rawName : Option String :=
      match name with
      | none => ingredient_name
      | some v => some v
    .mk (pyStripIfTruthy rawName) (pyStripIfTruthy origin)
      (pyStripIfTruthy origin_detail) (pyStripIfTruthy amount)
      (normalizeSubIngList children)

def normalizeSubIngList : List SubIngNode → List SubIngOut
  | [] => []
  | n :: rest => normalizeSubIngNode n :: normalizeSubIngList rest
end

def normalizeIngItem (n : IngItemNode) : IngItemOut :=
  { ingredient_name := pyStripIfTruthy n.ingredient_name
    origin := pyStripIfTruthy n.origin
    origin_detail := pyStripIfTruthy n.origin_detail
    amount := pyStripIfTruthy n.amount
    sub_ingredients := normalizeSubIngList n.sub_ingredients }

def normalizeNutItem (n : NutItemNode) : NutItemOut :=
  { name := pyStripIfTruthy n.name
    value := pyStripIfTruthy n.value
    unit := pyStripIfTruthy n.unit
    daily_value := pyStripIfTruthy n.daily_value }

/-- The fields produced by the Pass4 structuring try-block. -/
structure Pass4StructOut where
  ingredient_items : List IngItemOut := []
  nutrition_items : List NutItemOut := []
  ingredient_items_reason : Option String := none
  raw_model_text_pass4_ingredients : Option String := none
  raw_model_text_pass4_nutrition : Option String := none
  raw_api_response_pass4_ingredients : Option String := none
  raw_api_response_pass4_nutrition : Option String := none
  raw_model_text_pass4 : Option String := none
  raw_api_response_pass4 : Option String := none
  pass4_ai_error : Option String := none
  tags : List CallTag := []

/-- The conditional remote structuring step of run_pass4_normalize. The
combined raw fields are assigned only after the nutrition call, so an
exception there leaves them None while the ingredient raw text (already
assigned) survives, exactly as in the source. -/
def pass4Structuring (o : ModelOracle)
    (reportNo ingredientsText productName nutritionText : Option String) :
    Pass4StructOut :=
  if pyTruthyS reportNo && pyTruthyS ingredientsText && pyTruthyS productName then
    match o.pass4ing with
    | .error e =>
      { pass4_ai_error := some e
        ingredient_items_reason := some ("pass4_structuring_failed:" ++ e)
        tags := [.p4ing] }
    | .ok (rawI, pI, apiI) =>
      let items := pI.ingredients_items.map normalizeIngItem
      let reasonOk := pyOrStr (pI.reason.getD "") "pass4_ingredients_structured"
      if pyTruthyS nutritionText then
        match o.pass4nut with
        | .error e =>
          { ingredient_items := items
            ingredient_items_reason := some ("pass4_structuring_failed:" ++ e)
            raw_model_text_pass4_ingredients := some rawI
            raw_api_response_pass4_ingredients := some apiI
            pass4_ai_error := some e
            tags := [.p4ing, .p4nut] }
        | .ok (rawN, pN, apiN) =>
          let nutItems := pN.nutrition_items.map normalizeNutItem
          let parts :=
            (if rawI ≠ "" then ["[PASS4-INGREDIENTS]\n" ++ rawI] else []) ++
            (if rawN ≠ "" then ["[PASS4-NUTRITION]\n" ++ rawN] else [])
          let apiParts :=
            (if apiI ≠ "" then ["[PASS4-INGREDIENTS]\n" ++ apiI] else []) ++
            (if apiN ≠ "" then ["[PASS4-NUTRITION]\n" ++ apiN] else [])
          { ingredient_items := items
            nutrition_items := nutItems
            ingredient_items_reason := some reasonOk
            raw_model_text_pass4_ingredients := some rawI
            raw_model_text_pass4_nutrition := some rawN
            raw_api_response_pass4_ingredients := some apiI
            raw_api_response_pass4_nutrition := some apiN
            raw_model_text_pass4 :=
              if parts = [] then none
              else some (String.intercalate "\n\n" parts)
            raw_api_response_pass4 :=
              if apiParts = [] then none
              else some (String.intercalate "\n\n" apiParts)
            tags := [.p4ing, .p4nut] }
      else
        let parts :=
          if rawI ≠ "" then ["[PASS4-INGREDIENTS]\n" ++ rawI] else []
        let apiParts :=
          if apiI ≠ "" then ["[PASS4-INGREDIENTS]\n" ++ apiI] else []
        { ingredient_items := items
          ingredient_items_reason := some reasonOk
          raw_model_text_pass4_ingredients := some rawI
          raw_api_response_pass4_ingredients := some apiI
          raw_model_text_pass4 :=
            if parts = [] then none else some (String.intercalate "\n\n" parts)
          raw_api_response_pass4 :=
            if apiParts = [] then none
            else some (String.intercalate "\n\n" apiParts)
          tags := [.p4ing] }
  else
    { ingredient_items_reason := some "pass4_skipped_missing_required_fields" }

/-- The Pass2-SKIP early return of run_pass4_normalize. -/
def pass4SkipRec (cfg : AnalyzerConfig) (p2 : AnalysisRec) : AnalysisRec :=
  let decisionRaw := upperStr (pyOrStr p2.ai_decision "SKIP")
  let suitabilityRaw := pyStripStr
    (pyOrStr p2.ai_suitability
      (if decisionRaw = "READ" then "적합" else "부적합"))
  { itemMnftrRptNo := none
    ingredients_text := none
    allergen_text := none
    nutrition_text := none
    note := pyOrStr p2.note "chatgpt(pass2_skip)"
    has_report_label := false
    product_name_in_image := none
    full_text := none
    has_ingredients := false
    quality_gate_pass := false
    quality_score := p2.quality_score
    quality_fail_reasons := p2.quality_fail_reasons
    quality_flags :=
      { is_real_world_photo := p2.quality_flags.is_real_world_photo
        is_blurry_or_lowres := p2.quality_flags.is_blurry_or_lowres
        is_wrinkled_or_distorted := p2.quality_flags.is_wrinkled_or_distorted
        is_cropped_or_partial := p2.quality_flags.is_cropped_or_partial
        ingredients_complete := some false
        report_number_complete := some false
        product_name_complete := some false
        nutrition_complete := some false }
    ai_decision := "SKIP"
    ai_suitability := suitabilityRaw
    ai_decision_confidence := p2.ai_decision_confidence
    ai_decision_reason := pyOrStr (pyStripStr p2.ai_decision_reason) "pass2_skip"
    raw_model_text := p2.raw_model_text
    raw_model_text_pass2 := p2.raw_model_text_pass2
    raw_model_text_pass3 := none
    source_model := cfg.model
    ingredient_items := []
    ingredient_items_reason := some "pass2_skip"
    nutrition_items := []
    report_number_validation := some
      { is_valid := false
        normalized_report_number := none
        reason := "pass2_skip" }
    raw_model_text_pass4 := none }

/-- The missing/failed-Pass3 early return of run_pass4_normalize: the
error-result shape with a few fields overridden (the fail-reason append
in the source mutates a local list the spread does not read). -/
def pass4ErrorRec (cfg : AnalyzerConfig) (p2 : AnalysisRec)
    (p3 : Option Pass3Result) : AnalysisRec :=
  let err :=
    match p3 with
    | some r => r.error.getD ""
    | none => "pass3_missing"
  let base := errorResult cfg err
    (match p3 with
     | some r => r.raw_model_text
     | none => none)
  { base with
    raw_model_text_pass2 := p2.raw_model_text_pass2
    raw_model_text_pass3 :=
      match p3 with
      | some r => r.raw_model_text_pass3
      | none => none
    ingredient_items := []
    ingredient_items_reason := some "pass3_error"
    nutrition_items := []
    report_number_validation := some
      { is_valid := false
        normalized_report_number := none
        reason := "pass3_error:" ++ err }
    raw_model_text_pass4 := none }

/-- Python truthiness of a Pass3Result error field. -/
def pass3ErrTruthy (p3 : Option Pass3Result) : Bool :=
  match p3 with
  | none => true
  | some r => pyTruthyS r.error

/-- The main normalization path of run_pass4_normalize (Pass2 READ, Pass3
present and error-free). -/
def pass4MainRec (cfg : AnalyzerConfig) (o : ModelOracle) (p2 : AnalysisRec)
    (p3 : Pass3Result) (target : Option String) :
    AnalysisRec × List CallTag :=
  let reportNo0 := resolveReportNo cfg p3.product_report_number p3.full_text
    target
  let ing0 := stripOrNone p3.ingredients_text
  let allergen0 := stripOrNone p3.allergen_text
  let split := splitAllergenNotice ing0
  let ing1 := split.1
  let extractedAllergen := split.2
  let allergen1 :=
    if !pyTruthyS allergen0 then extractedAllergen
    else
      match extractedAllergen, allergen0 with
      | some e, some a =>
        if !containsSubS e a then some (a ++ " | " ++ e) else allergen0
      | _, _ => allergen0
  let product0 := stripOrNone p3.product_name_in_image
  let nut0 := stripOrNone p3.nutrition_text
  let ing2 := if looksLikeIngredientsText cfg ing1 then ing1 else none
  let nut1 := if looksLikeNutritionText nut0 then nut0 else none
  let ingC0 := p3.ingredients_complete && pyTruthyS ing2
  let reportC0 := p3.report_number_complete && pyTruthyS reportNo0
  let productC0 := p3.product_name_complete && pyTruthyS product0
  let nutC0 := p3.nutrition_complete && pyTruthyS nut1
  let qgp0 := pyTruthyS reportNo0
  let suitability0 := pyStripStr
    (pyOrStr p2.ai_suitability
      (if upperStr (pyOrStr p2.ai_decision "SKIP") = "READ" then "적합"
       else "부적합"))
  let decisionReason0 := pyStripStr p2.ai_decision_reason
  let suitability1 := if qgp0 then suitability0 else "부적합"
  let decisionReason1 :=
    if qgp0 then decisionReason0
    else String.mk (pyStripSet [' ', '|']
      (decisionReason0 ++ " | missing_report_number").data)
  let failReasons1 := p2.quality_fail_reasons ++
    (if qgp0 then [] else ["missing_report_number"])
  let strictNull := cfg.strict_mode && !qgp0
  let reportNo1 := if strictNull then none else reportNo0
  let ing3 := if strictNull then none else ing2
  let allergen2 := if strictNull then none else allergen1
  let product1 := if strictNull then none else product0
  let nut2 := if strictNull then none else nut1
  let ingC1 := if strictNull then false else ingC0
  let reportC1 := if strictNull then false else reportC0
  let productC1 := if strictNull then false else productC0
  let nutC1 := if strictNull then false else nutC0
  let normalizedReportNo := (reportNo1.getD "").data.filter Char.isDigit
  let localReportValid := normalizedReportNo ≠ [] &&
    digitsFull1016 normalizedReportNo
  let reportReason :=
    if normalizedReportNo = [] then "missing_report_number"
    else if !digitsFull1016 normalizedReportNo then
      "invalid_report_number_format"
    else "valid_report_number_format"
  let rnv0 : ReportNumberValidation :=
    { is_valid := localReportValid
      normalized_report_number :=
        if normalizedReportNo = [] then none
        else some (String.mk normalizedReportNo)
      reason := reportReason }
  let productPlaceholder := placeholderReason product1 "product_name"
  let ingredientsPlaceholder := placeholderReason ing3 "ingredients"
  let reportPlaceholder :=
    if normalizedReportNo ≠ [] && repeatedDigitFull normalizedReportNo then
      some "report_number_repeated_digits"
    else none
  let qgpFinal := qgp0 && productPlaceholder.isNone &&
    ingredientsPlaceholder.isNone && reportPlaceholder.isNone
  let product2 := if productPlaceholder.isSome then none else product1
  let productC2 := if productPlaceholder.isSome then false else productC1
  let ing4 := if ingredientsPlaceholder.isSome then none else ing3
  let ingC2 := if ingredientsPlaceholder.isSome then false else ingC1
  let reportNo2 := if reportPlaceholder.isSome then none else reportNo1
  let reportC2 := if reportPlaceholder.isSome then false else reportC1
  let rnv :=
    match reportPlaceholder with
    | some rp => { rnv0 with is_valid := false, reason := rp }
    | none => rnv0
  let failReasons2 := failReasons1 ++
    (match productPlaceholder with
     | some x => [x]
     | none => []) ++
    (match ingredientsPlaceholder with
     | some x => [x]
     | none => []) ++
    (match reportPlaceholder with
     | some x => [x]
     | none => [])
  let anyPlaceholder := productPlaceholder.isSome ||
    ingredientsPlaceholder.isSome || reportPlaceholder.isSome
  let suitability2 := if anyPlaceholder then "부적합" else suitability1
  let extras := ([productPlaceholder, ingredientsPlaceholder,
    reportPlaceholder].filterMap id)
  let decisionReason2 :=
    if anyPlaceholder then
      String.mk (pyStripSet [' ', '|']
        (decisionReason1 ++ " | " ++ String.intercalate "," extras).data)
    else decisionReason1
  let st := pass4Structuring o reportNo2 ing4 product2 nut2
  ({ itemMnftrRptNo := reportNo2
     ingredients_text := ing4
     allergen_text := allergen2
     nutrition_text := nut2
     note := pyOrStr (p3.note.getD "") "chatgpt(pass3)"
     has_report_label := p3.has_report_label
     product_name_in_image := product2
     full_text := p3.full_text
     has_ingredients := pyTruthyS ing4
     quality_gate_pass := qgpFinal
     quality_score := p2.quality_score
     quality_fail_reasons := failReasons2
     quality_flags :=
       { is_real_world_photo := p2.quality_flags.is_real_world_photo
         is_blurry_or_lowres := p2.quality_flags.is_blurry_or_lowres
         is_wrinkled_or_distorted := p2.quality_flags.is_wrinkled_or_distorted
         is_cropped_or_partial := p2.quality_flags.is_cropped_or_partial
         ingredients_complete := some ingC2
         report_number_complete := some reportC2
         product_name_complete := some productC2
         nutrition_complete := some nutC1 }
     ai_decision := if qgpFinal then "READ" else "SKIP"
     ai_suitability := suitability2
     ai_decision_confidence := p2.ai_decision_confidence
     ai_decision_reason := decisionReason2
     raw_model_text := p3.raw_model_text
     raw_model_text_pass2 := p2.raw_model_text_pass2
     raw_model_text_pass3 := p3.raw_model_text_pass3
     source_model := cfg.model
     ingredient_items := st.ingredient_items
     ingredient_items_reason := st.ingredient_items_reason
     nutrition_items := st.nutrition_items
     report_number_validation := some rnv
     pass4_ai_error := st.pass4_ai_error
     raw_model_text_pass4 := st.raw_model_text_pass4
     raw_api_response_pass4 := st.raw_api_response_pass4
     raw_model_text_pass4_ingredients := st.raw_model_text_pass4_ingredients
     raw_model_text_pass4_nutrition := st.raw_model_text_pass4_nutrition
     raw_api_response_pass4_ingredients :=
       st.raw_api_response_pass4_ingredients
     raw_api_response_pass4_nutrition := st.raw_api_response_pass4_nutrition },
    st.tags)

/-- run_pass4_normalize. -/
def runPass4Normalize (cfg : AnalyzerConfig) (o : ModelOracle)
    (p2 : AnalysisRec) (p3 : Option Pass3Result) (target : Option String) :
    AnalysisRec × List CallTag :=
  let decisionRaw := upperStr (pyOrStr p2.ai_decision "SKIP")
  if decisionRaw ≠ "READ" then (pass4SkipRec cfg p2, [])
  else if pass3ErrTruthy p3 then (pass4ErrorRec cfg p2 p3, [])
  else
    match p3 with
    | some r => pass4MainRec cfg o p2 r target
    | none => (pass4ErrorRec cfg p2 none, [])

/-- analyze_pass1_precheck (URL entry point). -/
def analyzePass1Precheck (cfg : AnalyzerConfig) (o : ModelOracle)
    (imageUrl : String) : AnalysisRec :=
  match o.download with
  | .error e => errorResult cfg ("image_download_failed: " ++ e) none
  | .ok (imageBytes, mimeType) =>
    runPass1Precheck cfg imageBytes mimeType (some imageUrl)

/-- analyze_pass2 (URL entry point). -/
def analyzePass2 (cfg : AnalyzerConfig) (o : ModelOracle) (imageUrl : String) :
    AnalysisRec × List CallTag :=
  match o.download with
  | .error e => (errorResult cfg ("image_download_failed: " ++ e) none, [])
  | .ok (imageBytes, mimeType) =>
    let pre := runPass1Precheck cfg imageBytes mimeType (some imageUrl)
    if pre.precheck_pass.getD false = false then (pre, [])
    else runPass2Gate cfg o

/-- analyze: Pass1 → Pass2 → (READ only) Pass3 → Pass4, with the list of
model-call sites invoked along the way. -/
def analyze (cfg : AnalyzerConfig) (o : ModelOracle) (imageUrl : String)
    (target : Option String) : AnalysisRec × List CallTag :=
  match o.download with
  | .error e => (errorResult cfg ("image_download_failed: " ++ e) none, [])
  | .ok (imageBytes, mimeType) =>
    let pass1 := runPass1Precheck cfg imageBytes mimeType (some imageUrl)
    if pass1.precheck_pass.getD false = false then (pass1, [])
    else
      let g := runPass2Gate cfg o
      let p2 := g.1
      let includeNut := p2.quality_flags.has_nutrition_section.getD false
      let p3opt : Option Pass3Result :=
        if upperStr (pyOrStr p2.ai_decision "") = "READ" then
          some (runPass3Extract cfg o includeNut).1
        else none
      let t3 : List CallTag :=
        if upperStr (pyOrStr p2.ai_decision "") = "READ" then
          (runPass3Extract cfg o includeNut).2
        else []
      let p4 := runPass4Normalize cfg o p2 p3opt target
      (p4.1, g.2 ++ t3 ++ p4.2)

/-! ### Supporting lemmas -/

theorem normalizeReportNo_spec {v : Option String} {minD maxD : Nat}
    {s : String} (h : normalizeReportNo v minD maxD = some s) :
    s.data.all Char.isDigit = true ∧ minD ≤ s.length ∧ s.length ≤ maxD := by
  match v with
  | none => simp [normalizeReportNo] at h
  | some t =>
    unfold normalizeReportNo at h
    dsimp only at h
    split at h
    · exact absurd h (by simp)
    · split at h
      · exact absurd h (by simp)
      · next h2 =>
        injection h with h
        subst h
        simp only [Bool.or_eq_true, decide_eq_true_eq, not_or, not_lt] at h2
        refine ⟨?_, ?_, ?_⟩
        · rw [List.all_eq_true]
          intro c hc
          exact List.of_mem_filter hc
        · exact h2.1
        · exact h2.2

theorem containFix_none_right (r : Option String) :
    containFix r none = false := by
  cases r <;> rfl

theorem resolveReportNo_spec {cfg : AnalyzerConfig}
    {m f t : Option String} {s : String}
    (hmax : cfg.max_report_digits ≤ 24)
    (h : resolveReportNo cfg m f t = some s) :
    s.data.all Char.isDigit = true ∧ cfg.min_report_digits ≤ s.length ∧
      s.length ≤ 24 ∧
      (t = none → s.length ≤ cfg.max_report_digits) := by
  unfold resolveReportNo at h
  by_cases hc1 : containFix (normalizeReportNo m cfg.min_report_digits 24)
      (normalizeReportNo t cfg.min_report_digits 24) = true
  · rw [if_pos hc1] at h
    have hspec := normalizeReportNo_spec h
    refine ⟨hspec.1, hspec.2.1, hspec.2.2, ?_⟩
    rintro rfl
    rw [show normalizeReportNo none cfg.min_report_digits 24 = none from rfl,
      containFix_none_right] at hc1
    exact absurd hc1 (by simp)
  · rw [if_neg (by simpa using hc1)] at h
    by_cases hc2 : containFix
        (if normalizeReportNo m cfg.min_report_digits 24 = none then
          normalizeReportNo
            (extractReportNoFromText f cfg.min_report_digits
              cfg.max_report_digits)
            cfg.min_report_digits cfg.max_report_digits
        else normalizeReportNo m cfg.min_report_digits 24)
        (normalizeReportNo t cfg.min_report_digits 24) = true
    · rw [if_pos hc2] at h
      have hspec := normalizeReportNo_spec h
      refine ⟨hspec.1, hspec.2.1, hspec.2.2, ?_⟩
      rintro rfl
      rw [show normalizeReportNo none cfg.min_report_digits 24 = none from rfl,
        containFix_none_right] at hc2
      exact absurd hc2 (by simp)
    · rw [if_neg (by simpa using hc2)] at h
      have hspec := normalizeReportNo_spec h
      exact ⟨hspec.1, hspec.2.1, le_trans hspec.2.2 hmax,
        fun _ => hspec.2.2⟩

theorem errorResult_report (cfg : AnalyzerConfig) (e : String)
    (r : Option String) : (errorResult cfg e r).itemMnftrRptNo = none := rfl

theorem runPass1Precheck_report (cfg : AnalyzerConfig) (b : List Nat)
    (m : String) (u : Option String) :
    (runPass1Precheck cfg b m u).itemMnftrRptNo = none := by
  unfold runPass1Precheck
  dsimp only
  split_ifs <;> rfl

theorem pass4SkipRec_report (cfg : AnalyzerConfig) (p2 : AnalysisRec) :
    (pass4SkipRec cfg p2).itemMnftrRptNo = none := rfl

theorem pass4ErrorRec_report (cfg : AnalyzerConfig) (p2 : AnalysisRec)
    (p3 : Option Pass3Result) :
    (pass4ErrorRec cfg p2 p3).itemMnftrRptNo = none := rfl

theorem pass4MainRec_report (cfg : AnalyzerConfig) (o : ModelOracle)
    (p2 : AnalysisRec) (p3 : Pass3Result) (target : Option String) :
    (pass4MainRec cfg o p2 p3 target).1.itemMnftrRptNo = none ∨
    (pass4MainRec cfg o p2 p3 target).1.itemMnftrRptNo =
      resolveReportNo cfg p3.product_report_number p3.full_text target := by
  unfold pass4MainRec
  dsimp only
  split_ifs <;> simp

theorem runPass4Normalize_report (cfg : AnalyzerConfig) (o : ModelOracle)
    (p2 : AnalysisRec) (p3 : Option Pass3Result) (target : Option String) :
    (runPass4Normalize cfg o p2 p3 target).1.itemMnftrRptNo = none ∨
    ∃ r, p3 = some r ∧
      (runPass4Normalize cfg o p2 p3 target).1.itemMnftrRptNo =
        resolveReportNo cfg r.product_report_number r.full_text target := by
  unfold runPass4Normalize
  dsimp only
  split
  · left; exact pass4SkipRec_report cfg p2
  · split
    · left; exact pass4ErrorRec_report cfg p2 p3
    · match p3 with
      | some r =>
        rcases pass4MainRec_report cfg o p2 r target with h | h
        · left; exact h
        · right; exact ⟨r, rfl, h⟩
      | none => left; exact pass4ErrorRec_report cfg p2 none

theorem analyze_report (cfg : AnalyzerConfig) (o : ModelOracle) (url : String)
    (target : Option String) :
    (analyze cfg o url target).1.itemMnftrRptNo = none ∨
    ∃ r : Pass3Result, (analyze cfg o url target).1.itemMnftrRptNo =
      resolveReportNo cfg r.product_report_number r.full_text target := by
  unfold analyze
  match hd : o.download with
  | .error e => left; exact errorResult_report cfg _ none
  | .ok (b, m) =>
    dsimp only
    split
    · left; exact runPass1Precheck_report cfg b m (some url)
    · rcases runPass4Normalize_report cfg o (runPass2Gate cfg o).1
        (if upperStr (pyOrStr (runPass2Gate cfg o).1.ai_decision "") = "READ"
          then some (runPass3Extract cfg o
            ((runPass2Gate cfg o).1.quality_flags.has_nutrition_section.getD
              false)).1
        else none) target with h | ⟨r, _, h⟩
      · left; exact h
      · right; exact ⟨r, h⟩

/-! ### Concrete payloads shared by several witnesses -/

/-- A Pass2A response answering every quality question with an explicit
yes. -/
def pa2AllYes : Pass2AParsed :=
  { is_clear_text := some true
    is_full_frame := some true
    is_flat_undistorted := some true
    has_single_product := some true
    key_fields_fully_visible := some true
    no_glare_on_key_fields := some true
    no_object_occlusion_on_key_fields := some true
    no_any_text_occlusion_on_key_fields := some true
    no_glare_overlap_on_key_text := some true
    no_occlusion_overlap_on_key_text := some true
    no_white_circle_overlay_on_key_fields := some true
    no_wrinkle_fold_occlusion_on_key_fields := some true
    is_real_world_photo := some true }

/-- A Pass2A response answering every quality question with an explicit
no. -/
def pa2AllNo : Pass2AParsed :=
  { is_clear_text := some false
    is_full_frame := some false
    is_flat_undistorted := some false
    has_single_product := some false
    key_fields_fully_visible := some false
    no_glare_on_key_fields := some false
    no_object_occlusion_on_key_fields := some false
    no_any_text_occlusion_on_key_fields := some false
    no_glare_overlap_on_key_text := some false
    no_occlusion_overlap_on_key_text := some false
    no_white_circle_overlay_on_key_fields := some false
    no_wrinkle_fold_occlusion_on_key_fields := some false
    is_real_world_photo := some false }

/-- A Pass2B response with all three required sections present and no
nutrition section. -/
def pb2AllYes : Pass2BParsed :=
  { has_ingredients_section := some true
    has_report_number_label := some true
    has_product_name := some true
    has_nutrition_section := some false }

/-- An ingredients-track Pass3 response whose extracted report number has
the hint's 17 digits plus one trailing OCR digit. -/
def p3ingLongRpt : Pass3IngParsed :=
  { product_report_number := some "123456789012345678"
    ingredients_text := some "sugar, salt, water, pepper"
    product_name_in_image := some "Good Snack"
    has_report_label := some true
    ingredients_complete := some true
    report_number_complete := some true
    product_name_complete := some true }

/-- A full-pipeline oracle: valid PNG, both gates pass, extraction
succeeds with the 18-digit report number above, no nutrition section. -/
def oracleLongRpt : ModelOracle :=
  { download := .ok ([0x89, 0x50, 0x4E, 0x47, 0x0D], "image/png")
    pass2a := .ok ("rawA", pa2AllYes, "apiA")
    pass2b := .ok ("rawB", pb2AllYes, "apiB")
    pass3ing := .ok ("raw3", p3ingLongRpt, "api3")
    pass4ing := .ok ("raw4", { reason := some "structured" }, "api4") }

/-! ### C3 -/

/-- C3 counterexample: with extracted "12034567891234" and target hint
"1234567891234", _resolve_report_no keeps the extraction. The target is
not a contiguous substring of the extraction (the OCR inserted a "0"
inside it), so the containment correction does not fire and the claimed
result — the target — is not produced. -/
theorem c3_counterexample :
    resolveReportNo cfgDefault (some "12034567891234") none
        (some "1234567891234") = some "12034567891234" ∧
      resolveReportNo cfgDefault (some "12034567891234") none
        (some "1234567891234") ≠ some "1234567891234" := by
  constructor
  · decide
  · decide

/-- C3 (amended): the containment correction prefers the target only when
the target is a contiguous substring of the extraction: for extracted
"11234567891234" (target substring, one duplicated leading digit) the
resolved number equals the target "1234567891234"; for the claimed pair
("12034567891234", "1234567891234") the target is not a substring and the
extraction is kept. -/
theorem c3_theorem :
    resolveReportNo cfgDefault (some "11234567891234") none
        (some "1234567891234") = some "1234567891234" ∧
      resolveReportNo cfgDefault (some "12034567891234") none
        (some "1234567891234") = some "12034567891234" := by
  constructor
  · decide
  · decide

/-! ### C4 -/

/-- C4 counterexample: a full analyze run in which the containment
correction adopts a 17-digit target hint, so the final record's
itemMnftrRptNo has 17 digits — outside the claimed 10–16 final acceptance
range. -/
theorem c4_counterexample :
    (analyze cfgDefault oracleLongRpt "http://img"
        (some "12345678901234567")).1.itemMnftrRptNo =
      some "12345678901234567" ∧
    (analyze cfgDefault oracleLongRpt "http://img"
        (some "12345678901234567")).1.quality_gate_pass = true ∧
    ("12345678901234567" : String).length = 17 := by
  refine ⟨by decide, by decide, by decide⟩

/-- C4 (amended): a non-null final itemMnftrRptNo is always digits-only,
but its length is only guaranteed to lie in the intermediate-correction
range 10–24; the 10–16 bound holds whenever no target hint is supplied
(the containment correction, which can return a target of up to 24
digits, is the only path past 16). -/
theorem c4_theorem (cfg : AnalyzerConfig) (o : ModelOracle) (url : String)
    (target : Option String) (s : String)
    (hmin : cfg.min_report_digits = 10) (hmax : cfg.max_report_digits = 16)
    (h : (analyze cfg o url target).1.itemMnftrRptNo = some s) :
    s.data.all Char.isDigit = true ∧ 10 ≤ s.length ∧ s.length ≤ 24 ∧
      (target = none → s.length ≤ 16) := by
  rcases analyze_report cfg o url target with h0 | ⟨r, he⟩
  · rw [h0] at h
    exact absurd h (by simp)
  · rw [he] at h
    have hs := resolveReportNo_spec (by omega) h
    rw [hmin, hmax] at hs
    exact hs

/-- C4 witness: the amended theorem applied at the concrete 17-digit-hint
run. -/
theorem c4_witness :
    ("12345678901234567" : String).data.all Char.isDigit = true ∧
      10 ≤ ("12345678901234567" : String).length ∧
      ("12345678901234567" : String).length ≤ 24 ∧
      ((some "12345678901234567" : Option String) = none →
        ("12345678901234567" : String).length ≤ 16) :=
  c4_theorem cfgDefault oracleLongRpt "http://img" (some "12345678901234567")
    "12345678901234567" rfl rfl (by decide)

/-! ### C7 -/

/-- C7: in strict mode, when no report number resolves in Pass4, the
final record's ingredients_text, product_name_in_image and nutrition_text
(and allergen_text and itemMnftrRptNo) are all null, with
ai_decision=SKIP and ai_suitability=부적합, regardless of what Pass3
extracted. -/
theorem c7_theorem (cfg : AnalyzerConfig) (o : ModelOracle)
    (p2 : AnalysisRec) (p3 : Pass3Result) (target : Option String)
    (hstrict : cfg.strict_mode = true)
    (hdec : p2.ai_decision = "READ")
    (herr : p3.error = none)
    (hres : resolveReportNo cfg p3.product_report_number p3.full_text target =
      none) :
    (runPass4Normalize cfg o p2 (some p3) target).1.ingredients_text = none ∧
    (runPass4Normalize cfg o p2 (some p3) target).1.product_name_in_image =
      none ∧
    (runPass4Normalize cfg o p2 (some p3) target).1.nutrition_text = none ∧
    (runPass4Normalize cfg o p2 (some p3) target).1.allergen_text = none ∧
    (runPass4Normalize cfg o p2 (some p3) target).1.itemMnftrRptNo = none ∧
    (runPass4Normalize cfg o p2 (some p3) target).1.ai_decision = "SKIP" ∧
    (runPass4Normalize cfg o p2 (some p3) target).1.ai_suitability =
      "부적합" := by
  have hd : upperStr (pyOrStr p2.ai_decision "SKIP") = "READ" := by
    rw [hdec]; decide
  have hterr : pass3ErrTruthy (some p3) = false := by
    simp [pass3ErrTruthy, herr, pyTruthyS]
  unfold runPass4Normalize
  simp only [hd, hterr, ne_eq, not_true_eq_false, if_false,
    Bool.false_eq_true, ite_false]
  unfold pass4MainRec
  simp only [hres, hstrict, pyTruthyS, Bool.not_false, Bool.and_self,
    Bool.true_and, Bool.false_and, if_true, ite_true, ite_self,
    Bool.and_eq_true, Bool.false_eq_true, if_false, ite_false]
  exact ⟨trivial, trivial, trivial, trivial, trivial, trivial, trivial⟩

/-- C7 witness: strict default config, a READ gate record, an empty Pass3
extraction (so no report number resolves). -/
theorem c7_witness :
    (runPass4Normalize cfgDefault {} { ai_decision := "READ" } (some {})
      none).1.ingredients_text = none ∧
    (runPass4Normalize cfgDefault {} { ai_decision := "READ" } (some {})
      none).1.product_name_in_image = none ∧
    (runPass4Normalize cfgDefault {} { ai_decision := "READ" } (some {})
      none).1.nutrition_text = none ∧
    (runPass4Normalize cfgDefault {} { ai_decision := "READ" } (some {})
      none).1.allergen_text = none ∧
    (runPass4Normalize cfgDefault {} { ai_decision := "READ" } (some {})
      none).1.itemMnftrRptNo = none ∧
    (runPass4Normalize cfgDefault {} { ai_decision := "READ" } (some {})
      none).1.ai_decision = "SKIP" ∧
    (runPass4Normalize cfgDefault {} { ai_decision := "READ" } (some {})
      none).1.ai_suitability = "부적합" :=
  c7_theorem cfgDefault {} { ai_decision := "READ" } {} none rfl rfl rfl
    (by decide)

/-! ### C10 -/

/-- The invariant C10 asserts of every returned record. -/
def decisionGateConsistent (r : AnalysisRec) : Prop :=
  r.ai_decision = "READ" ↔ r.quality_gate_pass = true

theorem dgc_errorResult (cfg : AnalyzerConfig) (e : String)
    (raw : Option String) : decisionGateConsistent (errorResult cfg e raw) := by
  unfold decisionGateConsistent errorResult
  dsimp only
  decide

theorem dgc_runPass1Precheck (cfg : AnalyzerConfig) (b : List Nat)
    (m : String) (u : Option String) :
    decisionGateConsistent (runPass1Precheck cfg b m u) := by
  unfold decisionGateConsistent runPass1Precheck
  dsimp only
  split_ifs <;> simp

theorem ite_read_skip (b : Bool) :
    ((if b = true then "READ" else "SKIP") = "READ" ↔ b = true) := by
  cases b <;> decide

theorem dgc_pass2GateRec (cfg : AnalyzerConfig) (rawA : String)
    (pa : Pass2AParsed) (apiA : String)
    (pbOut : Option (String × Pass2BParsed × String)) :
    decisionGateConsistent (pass2GateRec cfg rawA pa apiA pbOut) := by
  unfold decisionGateConsistent pass2GateRec
  dsimp only
  constructor
  · intro h
    rw [h]
    decide
  · intro h
    have := of_decide_eq_true h
    exact this

theorem dgc_runPass2Gate (cfg : AnalyzerConfig) (o : ModelOracle) :
    decisionGateConsistent (runPass2Gate cfg o).1 := by
  unfold runPass2Gate
  match o.pass2a with
  | .error e => exact dgc_errorResult cfg e none
  | .ok (rawA, pa, apiA) =>
    dsimp only
    split
    · match o.pass2b with
      | .error e => exact dgc_errorResult cfg e (some rawA)
      | .ok bOut => exact dgc_pass2GateRec cfg rawA pa apiA (some bOut)
    · exact dgc_pass2GateRec cfg rawA pa apiA none

theorem dgc_pass4SkipRec (cfg : AnalyzerConfig) (p2 : AnalysisRec) :
    decisionGateConsistent (pass4SkipRec cfg p2) := by
  unfold decisionGateConsistent pass4SkipRec
  dsimp only
  decide

theorem dgc_pass4ErrorRec (cfg : AnalyzerConfig) (p2 : AnalysisRec)
    (p3 : Option Pass3Result) :
    decisionGateConsistent (pass4ErrorRec cfg p2 p3) := by
  unfold decisionGateConsistent pass4ErrorRec errorResult
  dsimp only
  decide

theorem dgc_pass4MainRec (cfg : AnalyzerConfig) (o : ModelOracle)
    (p2 : AnalysisRec) (p3 : Pass3Result) (target : Option String) :
    decisionGateConsistent (pass4MainRec cfg o p2 p3 target).1 := by
  unfold decisionGateConsistent pass4MainRec
  dsimp only
  apply ite_read_skip

theorem dgc_runPass4Normalize (cfg : AnalyzerConfig) (o : ModelOracle)
    (p2 : AnalysisRec) (p3 : Option Pass3Result) (target : Option String) :
    decisionGateConsistent (runPass4Normalize cfg o p2 p3 target).1 := by
  unfold runPass4Normalize
  dsimp only
  split
  · exact dgc_pass4SkipRec cfg p2
  · split
    · exact dgc_pass4ErrorRec cfg p2 p3
    · match p3 with
      | some r => exact dgc_pass4MainRec cfg o p2 r target
      | none => exact dgc_pass4ErrorRec cfg p2 none

/-- C10: across the analyze, analyze_pass1_precheck, analyze_pass2 and
analyze_pass4_normalize entry points, every returned record has
ai_decision = "READ" exactly when quality_gate_pass is true, whatever the
oracle and inputs (precheck success/failure, gate, error and normalize
shapes included). -/
theorem c10_theorem (cfg : AnalyzerConfig) (o : ModelOracle) (url : String)
    (target : Option String) (p2 : AnalysisRec) (p3 : Option Pass3Result) :
    decisionGateConsistent (analyze cfg o url target).1 ∧
    decisionGateConsistent (analyzePass1Precheck cfg o url) ∧
    decisionGateConsistent (analyzePass2 cfg o url).1 ∧
    decisionGateConsistent (runPass4Normalize cfg o p2 p3 target).1 := by
  refine ⟨?_, ?_, ?_, dgc_runPass4Normalize cfg o p2 p3 target⟩
  · unfold analyze
    match o.download with
    | .error e => exact dgc_errorResult cfg _ none
    | .ok (b, m) =>
      dsimp only
      split
      · exact dgc_runPass1Precheck cfg b m (some url)
      · exact dgc_runPass4Normalize cfg o _ _ target
  · unfold analyzePass1Precheck
    match o.download with
    | .error e => exact dgc_errorResult cfg _ none
    | .ok (b, m) => exact dgc_runPass1Precheck cfg b m (some url)
  · unfold analyzePass2
    match o.download with
    | .error e => exact dgc_errorResult cfg _ none
    | .ok (b, m) =>
      dsimp only
      split
      · exact dgc_runPass1Precheck cfg b m (some url)
      · exact dgc_runPass2Gate cfg o

/-! ### C2 -/

theorem runPass2Gate_tags (cfg : AnalyzerConfig) (o : ModelOracle) :
    ∀ t ∈ (runPass2Gate cfg o).2, t = CallTag.p2a ∨ t = CallTag.p2b := by
  unfold runPass2Gate
  match o.pass2a with
  | .error e => intro t ht; simp at ht; exact Or.inl ht
  | .ok (rawA, pa, apiA) =>
    dsimp only
    split
    · match o.pass2b with
      | .error e => intro t ht; simpa using ht
      | .ok bOut => intro t ht; simpa using ht
    · intro t ht; simp at ht; exact Or.inl ht

theorem runPass1Precheck_nullfields (cfg : AnalyzerConfig) (b : List Nat)
    (m : String) (u : Option String) :
    (runPass1Precheck cfg b m u).itemMnftrRptNo = none ∧
    (runPass1Precheck cfg b m u).ingredients_text = none ∧
    (runPass1Precheck cfg b m u).allergen_text = none ∧
    (runPass1Precheck cfg b m u).nutrition_text = none ∧
    (runPass1Precheck cfg b m u).product_name_in_image = none ∧
    (runPass1Precheck cfg b m u).full_text = none ∧
    (runPass1Precheck cfg b m u).has_ingredients = false ∧
    (runPass1Precheck cfg b m u).ingredient_items = [] ∧
    (runPass1Precheck cfg b m u).nutrition_items = [] := by
  unfold runPass1Precheck
  dsimp only
  split_ifs <;> exact ⟨rfl, rfl, rfl, rfl, rfl, rfl, rfl, rfl, rfl⟩

/-- C2: whenever Pass2 decides SKIP, analyze invokes no Pass3 or Pass4
model call (the call-site trace holds only the two Pass2 sites) and every
Pass3/Pass4-derived field of the final record is null, false, or empty. -/
theorem c2_theorem (cfg : AnalyzerConfig) (o : ModelOracle) (url : String)
    (target : Option String)
    (h : (runPass2Gate cfg o).1.ai_decision = "SKIP") :
    ((analyze cfg o url target).1.itemMnftrRptNo = none ∧
     (analyze cfg o url target).1.ingredients_text = none ∧
     (analyze cfg o url target).1.allergen_text = none ∧
     (analyze cfg o url target).1.nutrition_text = none ∧
     (analyze cfg o url target).1.product_name_in_image = none ∧
     (analyze cfg o url target).1.full_text = none ∧
     (analyze cfg o url target).1.has_ingredients = false ∧
     (analyze cfg o url target).1.ingredient_items = [] ∧
     (analyze cfg o url target).1.nutrition_items = []) ∧
    ∀ t ∈ (analyze cfg o url target).2,
      t = CallTag.p2a ∨ t = CallTag.p2b := by
  have hu : upperStr (pyOrStr (runPass2Gate cfg o).1.ai_decision "") =
      "SKIP" := by rw [h]; decide
  have hu2 : upperStr (pyOrStr (runPass2Gate cfg o).1.ai_decision "SKIP") =
      "SKIP" := by rw [h]; decide
  unfold analyze
  match hd : o.download with
  | .error e =>
    exact ⟨⟨rfl, rfl, rfl, rfl, rfl, rfl, rfl, rfl, rfl⟩,
      by intro t ht; simp at ht⟩
  | .ok (b, m) =>
    dsimp only
    split
    · exact ⟨runPass1Precheck_nullfields cfg b m (some url),
        by intro t ht; simp at ht⟩
    · unfold runPass4Normalize
      dsimp only
      simp only [hu, hu2, ne_eq]
      simp only [show (("SKIP" : String) = "READ") = False by
        simp, not_false_eq_true, if_true, if_false, ite_true, ite_false]
      refine ⟨⟨rfl, rfl, rfl, rfl, rfl, rfl, rfl, rfl, rfl⟩, ?_⟩
      intro t ht
      simp only [List.append_nil, List.mem_append] at ht
      exact runPass2Gate_tags cfg o t ht

/-- An oracle whose Pass2A response fails every quality check, so the gate
decides SKIP. -/
def oracleSkip : ModelOracle :=
  { download := .ok ([0x89, 0x50, 0x4E, 0x47, 0x0D], "image/png")
    pass2a := .ok ("rawA", pa2AllNo, "apiA") }

/-- C2 witness: the theorem applied at the concrete all-checks-fail
oracle. -/
theorem c2_witness :
    (((analyze cfgDefault oracleSkip "http://img" none).1.itemMnftrRptNo =
        none ∧
      (analyze cfgDefault oracleSkip "http://img" none).1.ingredients_text =
        none ∧
      (analyze cfgDefault oracleSkip "http://img" none).1.allergen_text =
        none ∧
      (analyze cfgDefault oracleSkip "http://img" none).1.nutrition_text =
        none ∧
      (analyze cfgDefault oracleSkip "http://img"
          none).1.product_name_in_image = none ∧
      (analyze cfgDefault oracleSkip "http://img" none).1.full_text = none ∧
      (analyze cfgDefault oracleSkip "http://img" none).1.has_ingredients =
        false ∧
      (analyze cfgDefault oracleSkip "http://img" none).1.ingredient_items =
        [] ∧
      (analyze cfgDefault oracleSkip "http://img" none).1.nutrition_items =
        []) ∧
    ∀ t ∈ (analyze cfgDefault oracleSkip "http://img" none).2,
      t = CallTag.p2a ∨ t = CallTag.p2b) :=
  c2_theorem cfgDefault oracleSkip "http://img" none (by decide)

/-! ### C6 -/

/-- C6 counterexample: the 2A quality gate evaluates twelve checks, not
eleven — a Pass2A response failing everything yields twelve 2A fail
codes. -/
theorem c6_counterexample :
    (failChecks2A pa2AllNo).length = 12 ∧
      (failChecks2A pa2AllNo).length ≠ 11 := by
  exact ⟨by decide, by decide⟩

/-- C6 (amended): for every pair of successful Pass2A/Pass2B responses,
run_pass2_gate returns READ iff all twelve 2A quality checks pass and the
three required 2B presence checks are true; and whenever 2A failed (2B
never invoked) the fail list carries pass2b_skipped_by_pass2a_fail. -/
theorem c6_theorem (cfg : AnalyzerConfig) (o : ModelOracle)
    (rawA : String) (pa : Pass2AParsed) (apiA : String)
    (rawB : String) (pb : Pass2BParsed) (apiB : String)
    (ha : o.pass2a = .ok (rawA, pa, apiA))
    (hb : o.pass2b = .ok (rawB, pb, apiB)) :
    ((runPass2Gate cfg o).1.ai_decision = "READ" ↔
      (failChecks2A pa = [] ∧ pb.has_ingredients_section.getD false = true ∧
       pb.has_report_number_label.getD false = true ∧
       pb.has_product_name.getD false = true)) ∧
    (failChecks2A pa ≠ [] →
      "pass2b_skipped_by_pass2a_fail" ∈
        (runPass2Gate cfg o).1.quality_fail_reasons) := by
  unfold runPass2Gate
  simp only [ha]
  by_cases hok : failChecks2A pa = []
  · have hok' : pass2aOk pa = true := by simp [pass2aOk, hok]
    simp only [hok', if_true, ite_true, hb]
    unfold pass2GateRec
    dsimp only
    refine ⟨?_, fun hne => absurd hok hne⟩
    cases hf1 : pb.has_ingredients_section.getD false <;>
      cases hf2 : pb.has_report_number_label.getD false <;>
      cases hf3 : pb.has_product_name.getD false <;>
      simp [hok, hok', hf1, hf2, hf3]
  · have hok' : pass2aOk pa = false := by simp [pass2aOk, hok]
    simp only [hok', if_false, ite_false, Bool.false_eq_true]
    unfold pass2GateRec
    dsimp only
    constructor
    · simp [hok', hok]
    · intro _
      simp [hok']

/-- C6 witness: the amended theorem applied at the all-pass oracle. -/
theorem c6_witness :
    ((runPass2Gate cfgDefault oracleLongRpt).1.ai_decision = "READ" ↔
      (failChecks2A pa2AllYes = [] ∧
       pb2AllYes.has_ingredients_section.getD false = true ∧
       pb2AllYes.has_report_number_label.getD false = true ∧
       pb2AllYes.has_product_name.getD false = true)) ∧
    (failChecks2A pa2AllYes ≠ [] →
      "pass2b_skipped_by_pass2a_fail" ∈
        (runPass2Gate cfgDefault oracleLongRpt).1.quality_fail_reasons) :=
  c6_theorem cfgDefault oracleLongRpt "rawA" pa2AllYes "apiA" "rawB"
    pb2AllYes "apiB" rfl rfl

/-! ### C1 -/

/-- An oracle whose ingredients track succeeds and whose nutrition track
fails after exhausting retries. -/
def oracleNutFail : ModelOracle :=
  { pass3ing := .ok ("ing raw", p3ingLongRpt, "api3")
    pass3nut := .error "gemini_http_429: quota exceeded" }

/-- C1 counterexample: with the ingredients call succeeded and the
nutrition call failed, run_pass3_extract returns an ERROR record — the
extracted ingredients fields (report number, ingredients text, product
name, full text) are all discarded, contradicting the claimed
success-with-null-nutrition record. -/
theorem c1_counterexample :
    (runPass3Extract cfgDefault oracleNutFail true).1.error =
      some "gemini_http_429: quota exceeded" ∧
    (runPass3Extract cfgDefault oracleNutFail true).1.product_report_number =
      none ∧
    (runPass3Extract cfgDefault oracleNutFail true).1.ingredients_text =
      none ∧
    (runPass3Extract cfgDefault oracleNutFail
      true).1.product_name_in_image = none ∧
    (runPass3Extract cfgDefault oracleNutFail true).1.full_text = none := by
  exact ⟨rfl, rfl, rfl, rfl, rfl⟩

/-- C1 (amended): if the nutrition track was requested and its call fails
after retries, the whole pass returns an error record carrying the
nutrition error and the ingredients raw text, with every extracted field
dropped (both Pass3 call sites were invoked). The success record with
null nutrition fields and the (skipped_by_pass2_no_nutrition) marker
arises only when the nutrition track was not requested at all. -/
theorem c1_theorem (cfg : AnalyzerConfig) (o : ModelOracle)
    (rawIng : String) (pIng : Pass3IngParsed) (apiIng : String) (e : String)
    (hing : o.pass3ing = .ok (rawIng, pIng, apiIng))
    (hnut : o.pass3nut = .error e) :
    ((runPass3Extract cfg o true).1.error = some e ∧
     (runPass3Extract cfg o true).1.product_report_number = none ∧
     (runPass3Extract cfg o true).1.ingredients_text = none ∧
     (runPass3Extract cfg o true).1.nutrition_text = none ∧
     (runPass3Extract cfg o true).1.product_name_in_image = none ∧
     (runPass3Extract cfg o true).1.full_text = none ∧
     (runPass3Extract cfg o true).1.raw_model_text = some rawIng ∧
     (runPass3Extract cfg o true).2 = [CallTag.p3ing, CallTag.p3nut]) ∧
    ((runPass3Extract cfg o false).1.error = none ∧
     (runPass3Extract cfg o false).1.nutrition_text = none ∧
     (runPass3Extract cfg o false).1.ingredients_text =
       pIng.ingredients_text ∧
     (runPass3Extract cfg o false).1.product_report_number =
       pIng.product_report_number ∧
     (runPass3Extract cfg o false).1.raw_model_text =
       some (pyStripStr ("[PASS3-INGREDIENTS]\n" ++ rawIng ++
         "\n\n[PASS3-NUTRITION]\n" ++ "(skipped_by_pass2_no_nutrition)")) ∧
     (runPass3Extract cfg o false).2 = [CallTag.p3ing]) := by
  unfold runPass3Extract
  simp only [hing, hnut]
  exact ⟨⟨rfl, rfl, rfl, rfl, rfl, rfl, rfl, rfl⟩,
    ⟨rfl, rfl, rfl, rfl, rfl, rfl⟩⟩

/-- C1 witness: the amended theorem applied at the concrete
nutrition-failure oracle. -/
theorem c1_witness :
    ((runPass3Extract cfgDefault oracleNutFail true).1.error =
       some "gemini_http_429: quota exceeded" ∧
     (runPass3Extract cfgDefault oracleNutFail
       true).1.product_report_number = none ∧
     (runPass3Extract cfgDefault oracleNutFail true).1.ingredients_text =
       none ∧
     (runPass3Extract cfgDefault oracleNutFail true).1.nutrition_text =
       none ∧
     (runPass3Extract cfgDefault oracleNutFail
       true).1.product_name_in_image = none ∧
     (runPass3Extract cfgDefault oracleNutFail true).1.full_text = none ∧
     (runPass3Extract cfgDefault oracleNutFail true).1.raw_model_text =
       some "ing raw" ∧
     (runPass3Extract cfgDefault oracleNutFail true).2 =
       [CallTag.p3ing, CallTag.p3nut]) ∧
    ((runPass3Extract cfgDefault oracleNutFail false).1.error = none ∧
     (runPass3Extract cfgDefault oracleNutFail false).1.nutrition_text =
       none ∧
     (runPass3Extract cfgDefault oracleNutFail false).1.ingredients_text =
       p3ingLongRpt.ingredients_text ∧
     (runPass3Extract cfgDefault oracleNutFail
       false).1.product_report_number = p3ingLongRpt.product_report_number ∧
     (runPass3Extract cfgDefault oracleNutFail false).1.raw_model_text =
       some (pyStripStr ("[PASS3-INGREDIENTS]\n" ++ "ing raw" ++
         "\n\n[PASS3-NUTRITION]\n" ++ "(skipped_by_pass2_no_nutrition)")) ∧
     (runPass3Extract cfgDefault oracleNutFail false).2 =
       [CallTag.p3ing]) :=
  c1_theorem cfgDefault oracleNutFail "ing raw" p3ingLongRpt "api3"
    "gemini_http_429: quota exceeded" rfl rfl

/-! ### C5 -/

theorem is429_retryable {msg : String} (h : is429Msg msg = true) :
    isRetryableMsg msg = true := by
  unfold is429Msg at h
  unfold isRetryableMsg retrySignatures
  simp only [List.any_cons, List.any_nil, Bool.or_false]
  rcases Bool.or_eq_true_iff.mp h with h1 | h1
  · simp [h1]
  · simp [h1]

theorem not_retryable_not429 {msg : String} (h : isRetryableMsg msg = false) :
    is429Msg msg = false := by
  cases h4 : is429Msg msg
  · rfl
  · exact absurd (is429_retryable h4) (by simp [h])

/-- The delay sequence of the Pass2 retry loop starting at attempt a for
n sleeps. -/
def pass2Delays (backoff mult : ℚ) : Nat → Nat → List ℚ
  | _, 0 => []
  | a, n + 1 =>
    backoff * ((a : ℚ) + 1) * mult :: pass2Delays backoff mult (a + 1) n

theorem pass2Delays_length (backoff mult : ℚ) :
    ∀ (n a : Nat), (pass2Delays backoff mult a n).length = n := by
  intro n
  induction n with
  | zero => intro a; rfl
  | succ k ih => intro a; simp [pass2Delays, ih (a + 1)]

theorem pass2RetryGo_err {α : Type} (mr : Nat) (backoff : ℚ)
    (stub : Nat → Except String α) (m : String)
    (hstub : ∀ n, stub n = .error m) :
    ∀ (n attempt fuel : Nat) (acc : List ℚ),
      attempt + n = mr → n + 1 ≤ fuel →
      pass2RetryGo mr backoff stub fuel attempt acc =
        (.error m, mr + 1,
          acc ++ pass2Delays backoff
            (if isRetryableMsg m then 5 / 2 else 1) attempt n) := by
  intro n
  induction n with
  | zero =>
    intro attempt fuel acc ha hf
    match fuel, hf with
    | f + 1, _ =>
      unfold pass2RetryGo
      rw [hstub attempt]
      dsimp only
      rw [if_neg (by omega)]
      rw [show attempt + 1 = mr + 1 by omega]
      rw [show pass2Delays backoff (if isRetryableMsg m then 5 / 2 else 1)
        attempt 0 = [] from rfl, List.append_nil]
  | succ k ih =>
    intro attempt fuel acc ha hf
    match fuel, hf with
    | f + 1, _ =>
      unfold pass2RetryGo
      rw [hstub attempt]
      dsimp only
      rw [if_pos (by omega)]
      rw [ih (attempt + 1) f _ (by omega) (by omega)]
      rw [show pass2Delays backoff (if isRetryableMsg m then 5 / 2 else 1)
        attempt (k + 1) =
          backoff * ((attempt : ℚ) + 1) *
            (if isRetryableMsg m then 5 / 2 else 1) ::
          pass2Delays backoff (if isRetryableMsg m then 5 / 2 else 1)
            (attempt + 1) k from rfl]
      rw [List.append_assoc]
      rfl

/-- C5 counterexample: a stub raising a non-retryable error ("401
unauthorized" matches no transient signature) still drives the Pass2
retry wrapper through all four attempts with three backoff sleeps, not
the claimed single attempt with none. -/
theorem c5_counterexample :
    (pass2Retry cfgDefault
        (fun _ => (.error "401 unauthorized" : Except String Unit))).2.1 =
      4 ∧
    (pass2Retry cfgDefault
        (fun _ => (.error "401 unauthorized" : Except String Unit))).2.1 ≠
      1 ∧
    (pass2Retry cfgDefault
        (fun _ => (.error "401 unauthorized" : Except String
          Unit))).2.2.length = 3 := by
  refine ⟨by decide, by decide, ?_⟩
  unfold pass2Retry
  rw [pass2RetryGo_err cfgDefault.model_retries cfgDefault.retry_backoff_sec
    _ "401 unauthorized" (fun _ => rfl) cfgDefault.model_retries 0
    (cfgDefault.model_retries + 1) [] (by omega) (by omega)]
  simp [pass2Delays_length]
  rfl

/-- C5 (amended): on a non-retryable error only Pass3's wrapper fails
immediately — a single model call, no sleep; Pass2's wrapper retries
every error alike, making model_retries+1 calls with model_retries
backoff sleeps (the retryable classification only scales its delay). -/
theorem c5_theorem {α : Type} (cfg : AnalyzerConfig)
    (stub : Nat → Except String α) (jitter : Nat → ℚ) (m : String)
    (hstub : ∀ n, stub n = .error m)
    (hnr : isRetryableMsg m = false) :
    ((pass3Retry cfg stub jitter).1 = .error m ∧
     (pass3Retry cfg stub jitter).2.1 = 1 ∧
     (pass3Retry cfg stub jitter).2.2 = []) ∧
    ((pass2Retry cfg stub).1 = .error m ∧
     (pass2Retry cfg stub).2.1 = cfg.model_retries + 1 ∧
     (pass2Retry cfg stub).2.2.length = cfg.model_retries) := by
  constructor
  · have h429 := not_retryable_not429 hnr
    unfold pass3Retry
    dsimp only
    unfold pass3RetryGo
    rw [if_pos (by positivity)]
    rw [hstub 0]
    dsimp only
    rw [h429, hnr]
    simp only [Bool.and_false, if_false, ite_false, Bool.false_eq_true]
    exact ⟨trivial, trivial, trivial⟩
  · unfold pass2Retry
    rw [pass2RetryGo_err cfg.model_retries cfg.retry_backoff_sec stub m hstub
      cfg.model_retries 0 (cfg.model_retries + 1) [] (by omega) (by omega)]
    exact ⟨rfl, rfl, by simp [pass2Delays_length]⟩

/-- C5 witness: the amended theorem applied at a concrete auth-failure
stub with the default configuration. -/
theorem c5_witness :
    (((pass3Retry cfgDefault
         (fun _ => (.error "401 unauthorized" : Except String Unit))
         (fun _ => 0)).1 = .error "401 unauthorized" ∧
      (pass3Retry cfgDefault
         (fun _ => (.error "401 unauthorized" : Except String Unit))
         (fun _ => 0)).2.1 = 1 ∧
      (pass3Retry cfgDefault
         (fun _ => (.error "401 unauthorized" : Except String Unit))
         (fun _ => 0)).2.2 = []) ∧
     ((pass2Retry cfgDefault
         (fun _ => (.error "401 unauthorized" : Except String Unit))).1 =
        .error "401 unauthorized" ∧
      (pass2Retry cfgDefault
         (fun _ => (.error "401 unauthorized" : Except String Unit))).2.1 =
        cfgDefault.model_retries + 1 ∧
      (pass2Retry cfgDefault
         (fun _ => (.error "401 unauthorized" : Except String
           Unit))).2.2.length = cfgDefault.model_retries)) :=
  c5_theorem cfgDefault _ (fun _ => 0) "401 unauthorized" (fun _ => rfl)
    (by decide)

/-! ### C9 -/

/-- The rate-limit delay sequence of the Pass3 retry loop starting at
attempt a for n sleeps. -/
def pass3Delays (cfg : AnalyzerConfig) (jitter : Nat → ℚ) :
    Nat → Nat → List ℚ
  | _, 0 => []
  | a, n + 1 =>
    (min cfg.pass3_retry_on_429_max_sec
        (cfg.pass3_retry_on_429_base_sec * 2 ^ a) + jitter a) ::
      pass3Delays cfg jitter (a + 1) n

theorem pass3Delays_length (cfg : AnalyzerConfig) (jitter : Nat → ℚ) :
    ∀ (n a : Nat), (pass3Delays cfg jitter a n).length = n := by
  intro n
  induction n with
  | zero => intro a; rfl
  | succ k ih => intro a; simp [pass3Delays, ih (a + 1)]

theorem pass3Delays_getD (cfg : AnalyzerConfig) (jitter : Nat → ℚ) :
    ∀ (n a i : Nat), i < n →
      (pass3Delays cfg jitter a n).getD i 0 =
        min cfg.pass3_retry_on_429_max_sec
          (cfg.pass3_retry_on_429_base_sec * 2 ^ (a + i)) + jitter (a + i) := by
  intro n
  induction n with
  | zero => intro a i hi; omega
  | succ k ih =>
    intro a i hi
    match i with
    | 0 => simp [pass3Delays]
    | j + 1 =>
      have := ih (a + 1) j (by omega)
      simp only [pass3Delays, List.getD_cons_succ]
      rw [this, show a + 1 + j = a + (j + 1) by omega]

theorem pass3RetryGo_429 {α : Type} (cfg : AnalyzerConfig)
    (stub : Nat → Except String α) (jitter : Nat → ℚ) (m : String)
    (hstub : ∀ n, stub n = .error m) (h429 : is429Msg m = true) :
    ∀ (n attempt maxAtt fuel : Nat) (acc : List ℚ),
      attempt < maxAtt →
      max maxAtt cfg.pass3_retry_on_429_max_attempts = attempt + n + 1 →
      n + 1 ≤ fuel →
      pass3RetryGo cfg stub jitter fuel attempt maxAtt acc =
        (.error m, attempt + n + 1, acc ++ pass3Delays cfg jitter attempt n) := by
  have hretry := is429_retryable h429
  intro n
  induction n with
  | zero =>
    intro attempt maxAtt fuel acc hlt hmaxeq hf
    match fuel, hf with
    | f + 1, _ =>
      unfold pass3RetryGo
      rw [if_pos hlt, hstub attempt]
      dsimp only
      rw [h429]
      simp only [if_true, ite_true]
      rw [if_neg (by
        simp only [Bool.and_eq_true, decide_eq_true_eq, not_and]
        intro hcon
        omega)]
      rw [show pass3Delays cfg jitter attempt 0 = [] from rfl,
        List.append_nil]
  | succ k ih =>
    intro attempt maxAtt fuel acc hlt hmaxeq hf
    match fuel, hf with
    | f + 1, _ =>
      unfold pass3RetryGo
      rw [if_pos hlt, hstub attempt]
      dsimp only
      rw [h429]
      simp only [if_true, ite_true]
      rw [if_pos (by
        simp only [Bool.and_eq_true, decide_eq_true_eq]
        exact ⟨by omega, hretry⟩)]
      rw [ih (attempt + 1) (max maxAtt cfg.pass3_retry_on_429_max_attempts) f
        _ (by omega) (by omega) (by omega)]
      rw [show attempt + 1 + k + 1 = attempt + (k + 1) + 1 by omega]
      rw [show pass3Delays cfg jitter attempt (k + 1) =
        (min cfg.pass3_retry_on_429_max_sec
            (cfg.pass3_retry_on_429_base_sec * 2 ^ attempt) + jitter attempt) ::
          pass3Delays cfg jitter (attempt + 1) k from rfl]
      rw [List.append_assoc]
      rfl

theorem pass3Retry_429 {α : Type} (cfg : AnalyzerConfig)
    (stub : Nat → Except String α) (jitter : Nat → ℚ) (m : String)
    (hstub : ∀ n, stub n = .error m) (h429 : is429Msg m = true) :
    pass3Retry cfg stub jitter =
      (.error m,
        max (cfg.model_retries + 1) cfg.pass3_retry_on_429_max_attempts,
        pass3Delays cfg jitter 0
          (max (cfg.model_retries + 1) cfg.pass3_retry_on_429_max_attempts -
            1)) := by
  unfold pass3Retry
  dsimp only
  have hm1 : max 1 (cfg.model_retries + 1) = cfg.model_retries + 1 := by omega
  rw [hm1]
  rw [pass3RetryGo_429 cfg stub jitter m hstub h429
    (max (cfg.model_retries + 1) cfg.pass3_retry_on_429_max_attempts - 1) 0
    (cfg.model_retries + 1) _ [] (by omega) (by omega) (by omega)]
  rw [show 0 + (max (cfg.model_retries + 1)
    cfg.pass3_retry_on_429_max_attempts - 1) + 1 =
      max (cfg.model_retries + 1) cfg.pass3_retry_on_429_max_attempts by
    omega]
  rfl

/-- C9: with a stub that always raises a rate-limit error, the Pass3
retry wrapper makes exactly max(model_retries+1,
pass3_retry_on_429_max_attempts) model-call attempts before surfacing the
failure; each inter-attempt delay equals min(cap, base·2^attempt) plus
that attempt's jitter; with the default curve (base 2s, cap 30s) and the
attempt ceiling at its default scale the delay sequence is non-decreasing
whatever jitter values in [0, 0.8] are drawn, and the deterministic delay
component never exceeds the cap. -/
theorem c9_theorem {α : Type} (cfg : AnalyzerConfig)
    (stub : Nat → Except String α) (jitter : Nat → ℚ) (m : String)
    (hstub : ∀ n, stub n = .error m) (h429 : is429Msg m = true)
    (hj : ∀ n, 0 ≤ jitter n ∧ jitter n ≤ 4 / 5)
    (hb : cfg.pass3_retry_on_429_base_sec = 2)
    (hcap : cfg.pass3_retry_on_429_max_sec = 30)
    (hmr : cfg.model_retries + 1 ≤ 6)
    (hmx : cfg.pass3_retry_on_429_max_attempts ≤ 6) :
    (pass3Retry cfg stub jitter).2.1 =
      max (cfg.model_retries + 1) cfg.pass3_retry_on_429_max_attempts ∧
    (pass3Retry cfg stub jitter).1 = .error m ∧
    (pass3Retry cfg stub jitter).2.2.length =
      max (cfg.model_retries + 1) cfg.pass3_retry_on_429_max_attempts - 1 ∧
    (∀ i, i <
        max (cfg.model_retries + 1) cfg.pass3_retry_on_429_max_attempts - 1 →
      (pass3Retry cfg stub jitter).2.2.getD i 0 =
        min (30 : ℚ) (2 * 2 ^ i) + jitter i) ∧
    (∀ i, i + 1 <
        max (cfg.model_retries + 1) cfg.pass3_retry_on_429_max_attempts - 1 →
      (pass3Retry cfg stub jitter).2.2.getD i 0 ≤
        (pass3Retry cfg stub jitter).2.2.getD (i + 1) 0) ∧
    (∀ i : Nat, min cfg.pass3_retry_on_429_max_sec
        (cfg.pass3_retry_on_429_base_sec * 2 ^ i) ≤
      cfg.pass3_retry_on_429_max_sec) := by
  have key := pass3Retry_429 cfg stub jitter m hstub h429
  rw [key]
  dsimp only
  refine ⟨rfl, rfl, pass3Delays_length cfg jitter _ 0, ?_, ?_, ?_⟩
  · intro i hi
    rw [pass3Delays_getD cfg jitter _ 0 i hi, Nat.zero_add, hb, hcap]
  · intro i hi
    rw [pass3Delays_getD cfg jitter _ 0 i (by omega),
      pass3Delays_getD cfg jitter _ 0 (i + 1) (by omega),
      Nat.zero_add, Nat.zero_add, hb, hcap]
    have hi3 : i ≤ 3 := by omega
    have hji := (hj i).2
    have hji1 := (hj (i + 1)).1
    interval_cases i <;> norm_num [min_def] <;> linarith
  · intro i
    exact min_le_left _ _

/-- C9 witness: the theorem applied at the default configuration, an
always-429 stub and zero jitter. -/
theorem c9_witness :
    (pass3Retry cfgDefault
        (fun _ => (.error "gemini_http_429: quota" : Except String Unit))
        (fun _ => 0)).2.1 =
      max (cfgDefault.model_retries + 1)
        cfgDefault.pass3_retry_on_429_max_attempts ∧
    (pass3Retry cfgDefault
        (fun _ => (.error "gemini_http_429: quota" : Except String Unit))
        (fun _ => 0)).1 = .error "gemini_http_429: quota" ∧
    (pass3Retry cfgDefault
        (fun _ => (.error "gemini_http_429: quota" : Except String Unit))
        (fun _ => 0)).2.2.length =
      max (cfgDefault.model_retries + 1)
        cfgDefault.pass3_retry_on_429_max_attempts - 1 ∧
    (∀ i, i < max (cfgDefault.model_retries + 1)
        cfgDefault.pass3_retry_on_429_max_attempts - 1 →
      (pass3Retry cfgDefault
          (fun _ => (.error "gemini_http_429: quota" : Except String Unit))
          (fun _ => 0)).2.2.getD i 0 =
        min (30 : ℚ) (2 * 2 ^ i) + (fun _ => (0 : ℚ)) i) ∧
    (∀ i, i + 1 < max (cfgDefault.model_retries + 1)
        cfgDefault.pass3_retry_on_429_max_attempts - 1 →
      (pass3Retry cfgDefault
          (fun _ => (.error "gemini_http_429: quota" : Except String Unit))
          (fun _ => 0)).2.2.getD i 0 ≤
        (pass3Retry cfgDefault
            (fun _ => (.error "gemini_http_429: quota" : Except String Unit))
            (fun _ => 0)).2.2.getD (i + 1) 0) ∧
    (∀ i : Nat, min cfgDefault.pass3_retry_on_429_max_sec
        (cfgDefault.pass3_retry_on_429_base_sec * 2 ^ i) ≤
      cfgDefault.pass3_retry_on_429_max_sec) :=
  c9_theorem cfgDefault
    (fun _ => (.error "gemini_http_429: quota" : Except String Unit))
    (fun _ => 0) "gemini_http_429: quota" (fun _ => rfl) (by decide)
    (fun _ => ⟨le_refl 0, by norm_num⟩) rfl rfl (by decide) (by decide)

/-! ### C8 -/

/-- C8: the allergen-notice splitter maps "밀가루, 설탕, 대두 함유" to
cleaned ingredients "밀가루, 설탕" with an allergen text containing
"대두 함유", and leaves "효소스테비아대두함유향료" untouched (no
separator before the allergen word, so nothing is stripped). -/
theorem c8_theorem :
    splitAllergenNotice (some "밀가루, 설탕, 대두 함유") =
      (some "밀가루, 설탕", some "대두 함유") ∧
    containsSubS "대두 함유"
      ((splitAllergenNotice (some "밀가루, 설탕, 대두 함유")).2.getD "") =
      true ∧
    splitAllergenNotice (some "효소스테비아대두함유향료") =
      (some "효소스테비아대두함유향료", none) := by
  exact ⟨by decide, by decide, by decide⟩
